import Mathlib

/-!
Shallow embedding of the naive_evm interpreter (src/src/main.rs) and proofs
about the specification's claims.

Modelling conventions:
* 256-bit words (`U256`) are `Nat` with explicit `% 2 ^ 256` / bound checks
  where the Rust code wraps or checks; `u64`/`u32` casts carry explicit
  bounds mirroring `as_u64` / `as_u32` / `as_usize` panics.
* Rust panics are modelled as `Except.error` values of `EvmErr`; the error
  names follow the spec's error taxonomy (section 7) where it names the
  failure, with extra constructors for panics the taxonomy does not name
  (slice length mismatches, out-of-range slicing, integer-cast overflow).
* `Vec` push/pop at the end of the vector is modelled by a `List` whose
  head is the top of the stack.
* `HashMap` is modelled by an association list with unique keys; `insert`
  replaces in place or appends, `get_mut`-style updates map over the
  matching entry.
* The dispatch loop is fuel-bounded (`run fuel m`); running out of fuel is
  the artificial `.OutOfFuel` outcome, distinct from every real failure.
-/

namespace NaiveEvm

/-- 2^256: the modulus of the 256-bit word type. -/
def wordMod : Nat := 2 ^ 256

/-- 2^64: the modulus of u64. -/
def u64Mod : Nat := 2 ^ 64

/-- 2^32: the modulus of u32. -/
def u32Mod : Nat := 2 ^ 32

/-- Failure outcomes. Rust panics in the interpreter are modelled as these
errors; names follow the spec's error taxonomy where applicable. -/
inductive EvmErr where
  | StackUnderflow
  | ArithmeticOverflow
  | ArithmeticError
  | InvalidJumpDestination
  | MemoryBoundsError
  | OutOfGas
  | StaticStateViolation
  | UnknownOpcode
  | UnknownAccount
  | CastOverflow
  | SliceOutOfRange
  | SliceLenMismatch
  | U64Overflow
  | U64Underflow
  | WordOverflow
  | OutOfFuel
  deriving DecidableEq

/-- An account in the ledger (struct Account). -/
structure Account where
  balance : Nat
  nonce : Nat
  storage : List (String × String)
  code : List Nat
  deriving DecidableEq

/-- struct Transaction. -/
structure Transaction where
  nonce : Nat
  gas_price : Nat
  gas_limit : Nat
  «to» : Nat
  value : Nat
  data : Nat
  caller : Nat
  origin : Nat
  this_addr : Nat
  v : Nat
  r : Nat
  s : Nat
  deriving DecidableEq

/-- struct Block. -/
structure Block where
  blockhash : Nat
  coinbase : Nat
  timestamp : Nat
  number : Nat
  prevrandao : Nat
  gaslimit : Nat
  chainid : Nat
  selfbalance : Nat
  basefee : Nat
  deriving DecidableEq

/-- struct EVMLog. -/
structure EVMLog where
  address : Nat
  data : Nat
  topics : List Nat
  deriving DecidableEq

/-- struct EVM: one interpreter instance (the spec's Machine). -/
structure EVM where
  code : List Nat
  pc : Nat
  stack : List Nat
  memmory : List Nat
  storage : List (Nat × Nat)
  vaild_jump_dest : List Nat
  current_block : Block
  account_db : List (Nat × Account)
  transaction : Transaction
  log : List EVMLog
  return_data : List Nat
  success : Bool
  is_static : Bool
  gas_used : Nat
  deriving DecidableEq

/-- Association-list lookup (HashMap::get). First match wins; keys are kept
unique by `upsert` / `updateAt`. -/
def lookupKV {α : Type} (k : Nat) : List (Nat × α) → Option α
  | [] => none
  | (k', v) :: rest => if k' = k then some v else lookupKV k rest

/-- HashMap::insert: replace the value at an existing key, else append. -/
def upsert {α : Type} (k : Nat) (v : α) : List (Nat × α) → List (Nat × α)
  | [] => [(k, v)]
  | (k', v') :: rest =>
      if k' = k then (k, v) :: rest else (k', v') :: upsert k v rest

/-- Mutate the entry at key `k` in place (HashMap::get_mut followed by a
field update). Entries at other keys are untouched. -/
def updateAt {α : Type} (k : Nat) (f : α → α) : List (Nat × α) → List (Nat × α)
  | [] => []
  | (k', v) :: rest =>
      if k' = k then (k', f v) :: rest else (k', v) :: updateAt k f rest

/-- Memory growth: push zero bytes until the length reaches `n`
(the `while self.memmory.len() < n { self.memmory.push(0) }` loops and the
grow-only `resize` calls). -/
def padTo (n : Nat) (mem : List Nat) : List Nat :=
  if mem.length < n then mem ++ List.replicate (n - mem.length) 0 else mem

/-- Rust slice indexing `xs[start..start+len]`: panics when out of range. -/
def sliceRange {α : Type} (start len : Nat) (xs : List α) :
    Except EvmErr (List α) :=
  if start + len ≤ xs.length then .ok ((xs.drop start).take len)
  else .error .SliceOutOfRange

/-- `copy_from_slice` into `mem[start..start+len]`: panics unless the source
length equals the destination length. -/
def copyFromSlice (start len : Nat) (src mem : List Nat) :
    Except EvmErr (List Nat) :=
  if src.length = len then
    .ok (mem.take start ++ src ++ mem.drop (start + len))
  else .error .SliceLenMismatch

/-- U256::as_u64 (and `as_usize` on a 64-bit target): panics when the word
does not fit. -/
def asU64 (w : Nat) : Except EvmErr Nat :=
  if w < u64Mod then .ok w else .error .CastOverflow

/-- U256::as_u32. -/
def asU32 (w : Nat) : Except EvmErr Nat :=
  if w < u32Mod then .ok w else .error .CastOverflow

/-- Checked u64 addition (`+=` on a u64 field; overflow panics). -/
def u64add (x y : Nat) : Except EvmErr Nat :=
  if x + y < u64Mod then .ok (x + y) else .error .U64Overflow

/-- Big-endian bytes to Nat. -/
def beToNat (bs : List Nat) : Nat :=
  bs.foldl (fun acc b => acc * 256 + b) 0

/-- U256::from(&[u8]): big-endian value of a slice, panicking when the slice
is longer than 32 bytes. -/
def u256FromBytes (bs : List Nat) : Except EvmErr Nat :=
  if bs.length ≤ 32 then .ok (beToNat bs) else .error .WordOverflow

/-- `to_big_endian` into a 32-byte buffer. -/
def beBytes32 (w : Nat) : List Nat :=
  (List.range 32).map (fun i => w / 256 ^ (31 - i) % 256)

/-- Vec::push on the operand stack. -/
def stackPush (w : Nat) (m : EVM) : EVM :=
  { m with stack := w :: m.stack }

/-- EVM::pop — `self.stack.pop().unwrap_or(U256::zero())`: an empty stack
yields zero instead of failing. -/
def pop (m : EVM) : Nat × EVM :=
  match m.stack with
  | [] => (0, m)
  | a :: rest => (a, { m with stack := rest })

/-- Pop `n` words in order (first popped first in the result list). -/
def popN : Nat → EVM → (List Nat × EVM)
  | 0, m => ([], m)
  | n + 1, m =>
      let a := (pop m).1
      let m1 := (pop m).2
      let ts := (popN n m1).1
      let m2 := (popN n m1).2
      (a :: ts, m2)

/-- Modelled from the spec: the byte values of the instruction set. The
`op_code` module of this repository (crate `naive_evm`, `use
naive_evm::op_code::*`) is not under src/; the spec describes "an EVM-style
runtime" whose "instruction set is a fixed mapping from single byte values
to operations", so the constants take the standard EVM byte values the
source's instruction names denote (the values the source itself uses in
literal form — 0xF0 CREATE, 0xF5 CREATE2, 0xFF SELFDESTRUCT, 0xA0–0xA4
LOG0–LOG4, 0x55 SSTORE — agree with this numbering). -/
def STOP : Nat := 0x00

def ADD : Nat := 0x01
def MUL : Nat := 0x02
def SUB : Nat := 0x03
def DIV : Nat := 0x04
def SDIV : Nat := 0x05
def MOD : Nat := 0x06
def EXP : Nat := 0x0a
def LT : Nat := 0x10
def GT : Nat := 0x11
def EQ : Nat := 0x14
def ISZERO : Nat := 0x15
def AND : Nat := 0x16
def OR : Nat := 0x17
def XOR : Nat := 0x18
def NOT : Nat := 0x19
def BYTE : Nat := 0x1a
def SHL : Nat := 0x1b
def SHR : Nat := 0x1c
def SHA3 : Nat := 0x20
def ADDRESS : Nat := 0x30
def BALANCE : Nat := 0x31
def ORIGIN : Nat := 0x32
def CALLER : Nat := 0x33
def CALLVALUE : Nat := 0x34
def EXTCODESIZE : Nat := 0x3b
def EXTCODECOPY : Nat := 0x3c
def RETURNDATASIZE : Nat := 0x3d
def RETURNDATACOPY : Nat := 0x3e
def EXTCODEHASH : Nat := 0x3f
def BLOCKHASH : Nat := 0x40
def COINBASE : Nat := 0x41
def TIMESTAMP : Nat := 0x42
def NUMBER : Nat := 0x43
def PREVRANDAO : Nat := 0x44
def GASLIMIT : Nat := 0x45
def CHAINID : Nat := 0x46
def SELFBALANCE : Nat := 0x47
def BASEFEE : Nat := 0x48
def POP : Nat := 0x50
def MLOAD : Nat := 0x51
def MSTORE : Nat := 0x52
def MSTORE8 : Nat := 0x53
def SLOAD : Nat := 0x54
def SSTORE : Nat := 0x55
def JUMP : Nat := 0x56
def JUMPI : Nat := 0x57
def MSIZE : Nat := 0x59
def GAS : Nat := 0x5a
def JUMPDEST : Nat := 0x5b
def PUSH0 : Nat := 0x5f
def PUSH1 : Nat := 0x60
def PUSH32 : Nat := 0x7f
def DUP1 : Nat := 0x80
def DUP16 : Nat := 0x8f
def SWAP1 : Nat := 0x90
def SWAP16 : Nat := 0x9f
def LOG0 : Nat := 0xa0
def LOG1 : Nat := 0xa1
def LOG2 : Nat := 0xa2
def LOG3 : Nat := 0xa3
def LOG4 : Nat := 0xa4
def CREATE : Nat := 0xf0
def CALL : Nat := 0xf1
def RETURN : Nat := 0xf3
def CREATE2 : Nat := 0xf5
def STATICCALL : Nat := 0xfa
def REVERT : Nat := 0xfd
def INVALID : Nat := 0xfe
def SELFDESTRUCT : Nat := 0xff

/-- The lazily initialised GASCOST table (static GASCOST). -/
def GASCOST : List (Nat × Nat) :=
  [(PUSH0, 3), (PUSH1, 3), (PUSH32, 3), (POP, 2), (ADD, 3), (MUL, 5), (SUB, 3)]

/-- Block::default(). -/
def defaultBlock : Block :=
  { blockhash := 0x7527123fc877fe753b3122dc592671b4902ebf2b325dd2c7224a43c0cbeee3ca
    coinbase := 0x388C818CA8B9251b393131C08a736A67ccB19297
    timestamp := 1625900000
    number := 17871709
    prevrandao := 0xce124dee50136f3f93f19667fb4198c6b94eecbacfa300469e5280012757be94
    gaslimit := 30
    chainid := 1
    selfbalance := 100
    basefee := 30 }

/-- The hard-coded source account address used by EVM::init. -/
def addrA : Nat := 0x9bbfed6889322e016e0a02ee459d306fc19545d8

/-- The hard-coded target account address used by EVM::init. -/
def addrB : Nat := 0x1000000000000000000000000000000000000c42

/-- Transaction::default(). -/
def defaultTransaction : Transaction :=
  { nonce := 0, gas_price := 1, gas_limit := 21000, «to» := 0, value := 0
    data := 0, caller := addrA, origin := addrB, this_addr := addrB
    v := 0, r := 0, s := 0 }

/-- The hard-coded account seed set every EVM::init builds. -/
def initialAccountDb : List (Nat × Account) :=
  [(addrA, { balance := 100, nonce := 1, storage := []
             code := [0x60, 0x00, 0x60, 0x00] }),
   (addrB, { balance := 0, nonce := 1, storage := []
             code := [0x60, 0x42, 0x60, 0x00, 0x52, 0x60, 0x01, 0x60, 0x1f, 0xf3] })]

/-- EVM::init: a fresh machine over `code` with the hard-coded account
ledger. -/
def init (code : List Nat) (transaction : Transaction) (is_static : Bool) :
    EVM :=
  { code := code, pc := 0, stack := [], memmory := [], storage := []
    vaild_jump_dest := [], current_block := defaultBlock
    account_db := initialAccountDb, transaction := transaction, log := []
    return_data := [], success := true, is_static := is_static, gas_used := 0 }

/-- Shared shape of the binary-operator handlers: check for two elements,
pop `a` (top) then `b`, push the result of the per-opcode computation.
Each instantiation's function mirrors the body of the source handler. -/
def binop (f : Nat → Nat → Except EvmErr Nat) (m : EVM) :
    Except EvmErr EVM :=
  if m.stack.length < 2 then .error .StackUnderflow
  else
    let a := (pop m).1
    let m1 := (pop m).2
    let b := (pop m1).1
    let m2 := (pop m1).2
    match f a b with
    | .error e => .error e
    | .ok res => .ok (stackPush res m2)

/-- Shared shape of the one-operand handlers (iszero, not). -/
def unop (f : Nat → Except EvmErr Nat) (m : EVM) : Except EvmErr EVM :=
  if m.stack.length < 1 then .error .StackUnderflow
  else
    let a := (pop m).1
    let m1 := (pop m).2
    match f a with
    | .error e => .error e
    | .ok res => .ok (stackPush res m1)

/-- EVM::add — `a.checked_add(b)`, panicking on overflow. -/
def add : EVM → Except EvmErr EVM :=
  binop (fun a b =>
    if a + b < wordMod then .ok (a + b) else .error .ArithmeticOverflow)

/-- EVM::mul — `a.checked_mul(b)`. -/
def mul : EVM → Except EvmErr EVM :=
  binop (fun a b =>
    if a * b < wordMod then .ok (a * b) else .error .ArithmeticOverflow)

/-- EVM::sub — `b.checked_sub(a)`, panicking when `a > b`. -/
def sub : EVM → Except EvmErr EVM :=
  binop (fun a b =>
    if b < a then .error .ArithmeticOverflow else .ok (b - a))

/-- EVM::div — `b.checked_div(a)`, panicking when `a == 0`. -/
def div : EVM → Except EvmErr EVM :=
  binop (fun a b =>
    if a = 0 then .error .ArithmeticError else .ok (b / a))

/-- EVM::sdiv — same body as div in the source. -/
def sdiv : EVM → Except EvmErr EVM :=
  binop (fun a b =>
    if a = 0 then .error .ArithmeticError else .ok (b / a))

/-- EVM::mod — `b.checked_rem(a)`, panicking when `a == 0`. -/
def modOp : EVM → Except EvmErr EVM :=
  binop (fun a b =>
    if a = 0 then .error .ArithmeticError else .ok (b % a))

/-- EVM::exp — `b.checked_pow(a)`, panicking on overflow. -/
def expOp : EVM → Except EvmErr EVM :=
  binop (fun a b =>
    if b ^ a < wordMod then .ok (b ^ a) else .error .ArithmeticOverflow)

/-- EVM::lt — pushes 1 when `b < a`. -/
def lt : EVM → Except EvmErr EVM :=
  binop (fun a b => .ok (if b < a then 1 else 0))

/-- EVM::gt — pushes 1 when `b > a`. -/
def gt : EVM → Except EvmErr EVM :=
  binop (fun a b => .ok (if a < b then 1 else 0))

/-- EVM::eq. -/
def eqOp : EVM → Except EvmErr EVM :=
  binop (fun a b => .ok (if b = a then 1 else 0))

/-- EVM::iszero. -/
def iszero : EVM → Except EvmErr EVM :=
  unop (fun a => .ok (if a = 0 then 1 else 0))

/-- EVM::and_op. -/
def and_op : EVM → Except EvmErr EVM :=
  binop (fun a b => .ok (a &&& b))

/-- EVM::or. -/
def orOp : EVM → Except EvmErr EVM :=
  binop (fun a b => .ok (a ||| b))

/-- EVM::xor. -/
def xorOp : EVM → Except EvmErr EVM :=
  binop (fun a b => .ok (a ^^^ b))

/-- EVM::not — 256-bit complement of the operand. -/
def notOp : EVM → Except EvmErr EVM :=
  unop (fun a => .ok (wordMod - 1 - a))

/-- EVM::shl — `b << a`, truncated to 256 bits. -/
def shl : EVM → Except EvmErr EVM :=
  binop (fun a b => .ok (b * 2 ^ a % wordMod))

/-- EVM::shr — `b >> a`. -/
def shr : EVM → Except EvmErr EVM :=
  binop (fun a b => .ok (b / 2 ^ a))

/-- EVM::byte — `(b >> (a * 8)) & 0xff`; the U256 multiplication `a * 8`
panics on 256-bit overflow. -/
def byte : EVM → Except EvmErr EVM :=
  binop (fun a b =>
    if a * 8 < wordMod then .ok (b / 2 ^ (a * 8) % 256)
    else .error .ArithmeticOverflow)

/-- EVM::mstore — pop offset (as_u64) and value, grow memory to
`offset + 32`, write the 32-byte big-endian encoding. -/
def mstore (m : EVM) : Except EvmErr EVM :=
  if m.stack.length < 2 then .error .StackUnderflow
  else
    let o := (pop m).1
    let m1 := (pop m).2
    match asU64 o with
    | .error e => .error e
    | .ok offset =>
      let value := (pop m1).1
      let m2 := (pop m1).2
      let mem := padTo (offset + 32) m2.memmory
      match copyFromSlice offset 32 (beBytes32 value) mem with
      | .error e => .error e
      | .ok mem2 => .ok { m2 with memmory := mem2 }

/-- EVM::mstore8 — pop offset (as_u64) and value, grow memory to
`offset + 32`, then `copy_from_slice` the low 8 bytes (`res[24..32]`) into
the 32-byte destination region `memmory[offset..offset+32]`. -/
def mstore8 (m : EVM) : Except EvmErr EVM :=
  if m.stack.length < 2 then .error .StackUnderflow
  else
    let o := (pop m).1
    let m1 := (pop m).2
    match asU64 o with
    | .error e => .error e
    | .ok offset =>
      let value := (pop m1).1
      let m2 := (pop m1).2
      let mem := padTo (offset + 32) m2.memmory
      match copyFromSlice offset 32 ((beBytes32 value).drop 24) mem with
      | .error e => .error e
      | .ok mem2 => .ok { m2 with memmory := mem2 }

/-- EVM::mload — pop offset (as_u32), grow memory to `32 + offset`, push the
32-byte big-endian word at the offset. -/
def mload (m : EVM) : Except EvmErr EVM :=
  if m.stack.length < 1 then .error .StackUnderflow
  else
    let o := (pop m).1
    let m1 := (pop m).2
    match asU32 o with
    | .error e => .error e
    | .ok offset =>
      let mem := padTo (32 + offset) m1.memmory
      let value := beToNat ((mem.drop offset).take 32)
      .ok (stackPush value { m1 with memmory := mem })

/-- EVM::msize. -/
def msize (m : EVM) : Except EvmErr EVM :=
  .ok (stackPush m.memmory.length m)

/-- EVM::sstore — pop key and value, insert into this machine's storage. -/
def sstore (m : EVM) : Except EvmErr EVM :=
  if m.stack.length < 2 then .error .StackUnderflow
  else
    let key := (pop m).1
    let m1 := (pop m).2
    let value := (pop m1).1
    let m2 := (pop m1).2
    .ok { m2 with storage := upsert key value m2.storage }

/-- EVM::sload — pop key, push the stored value or zero. -/
def sload (m : EVM) : Except EvmErr EVM :=
  if m.stack.length < 1 then .error .StackUnderflow
  else
    let key := (pop m).1
    let m1 := (pop m).2
    .ok (stackPush ((lookupKV key m1.storage).getD 0) m1)

/-- EVM::jump — pop destination (as_usize); out-of-bounds or an offset not
in the valid-jump set panics. -/
def jump (m : EVM) : Except EvmErr EVM :=
  if m.stack.length < 1 then .error .StackUnderflow
  else
    let d := (pop m).1
    let m1 := (pop m).2
    match asU64 d with
    | .error e => .error e
    | .ok dest =>
      if m1.code.length ≤ dest then .error .InvalidJumpDestination
      else if m1.vaild_jump_dest.contains dest then .ok { m1 with pc := dest }
      else .error .InvalidJumpDestination

/-- EVM::jumpi — pop destination and condition; jump only when the
condition (cast via as_usize) is nonzero; no bounds check in the source. -/
def jumpi (m : EVM) : Except EvmErr EVM :=
  if m.stack.length < 2 then .error .StackUnderflow
  else
    let d := (pop m).1
    let m1 := (pop m).2
    match asU64 d with
    | .error e => .error e
    | .ok dest =>
      let c := (pop m1).1
      let m2 := (pop m1).2
      match asU64 c with
      | .error e => .error e
      | .ok cond =>
        if cond ≠ 0 then
          if m2.vaild_jump_dest.contains dest then .ok { m2 with pc := dest }
          else .error .InvalidJumpDestination
        else .ok m2

/-- EVM::blockhash — the hash only for the current block number, else 0. -/
def blockhash (m : EVM) : Except EvmErr EVM :=
  if m.stack.length < 1 then .error .StackUnderflow
  else
    let n := (pop m).1
    let m1 := (pop m).2
    match asU64 n with
    | .error e => .error e
    | .ok bn =>
      if bn = m1.current_block.number then
        .ok (stackPush m1.current_block.blockhash m1)
      else .ok (stackPush 0 m1)

/-- EVM::coinbase. -/
def coinbase (m : EVM) : Except EvmErr EVM :=
  .ok (stackPush m.current_block.coinbase m)

/-- EVM::timestamp. -/
def timestamp (m : EVM) : Except EvmErr EVM :=
  .ok (stackPush m.current_block.timestamp m)

/-- EVM::number. -/
def number (m : EVM) : Except EvmErr EVM :=
  .ok (stackPush m.current_block.number m)

/-- EVM::prevrandao. -/
def prevrandao (m : EVM) : Except EvmErr EVM :=
  .ok (stackPush m.current_block.prevrandao m)

/-- EVM::gaslimit. -/
def gaslimit (m : EVM) : Except EvmErr EVM :=
  .ok (stackPush m.current_block.gaslimit m)

/-- EVM::chainid. -/
def chainid (m : EVM) : Except EvmErr EVM :=
  .ok (stackPush m.current_block.chainid m)

/-- EVM::selfbalance. -/
def selfbalance (m : EVM) : Except EvmErr EVM :=
  .ok (stackPush m.current_block.selfbalance m)

/-- EVM::basefee. -/
def basefee (m : EVM) : Except EvmErr EVM :=
  .ok (stackPush m.current_block.basefee m)

/-- EVM::dup — duplicate the element `position` deep (`stack.get(len -
position)`); too few elements panics. -/
def dup (position : Nat) (m : EVM) : Except EvmErr EVM :=
  if m.stack.length < position then .error .StackUnderflow
  else .ok (stackPush (m.stack.getD (position - 1) 0) m)

/-- EVM::swap — swap the top with the element `position` below it. -/
def swap (position : Nat) (m : EVM) : Except EvmErr EVM :=
  if m.stack.length < position + 1 then .error .StackUnderflow
  else
    let top := m.stack.getD 0 0
    let other := m.stack.getD position 0
    .ok { m with stack := (m.stack.set 0 other).set position top }

/-- The 256-bit digest function (sha3::Keccak256). Its arithmetic content
is outside the spec's scope (section 1 treats it as "a 256-bit digest
function" only) and no claim depends on digest values, so it is left as a
fixed function of the input bytes. -/
def keccak256 (data : List Nat) : Nat :=
  beToNat data % wordMod

/-- EVM::sha3 — checks only that the stack is nonempty although it pops an
offset and a size; slicing unextended memory panics when out of range. -/
def sha3 (m : EVM) : Except EvmErr EVM :=
  if m.stack.length < 1 then .error .StackUnderflow
  else
    let o := (pop m).1
    let m1 := (pop m).2
    match asU64 o with
    | .error e => .error e
    | .ok offset =>
      let s := (pop m1).1
      let m2 := (pop m1).2
      match asU64 s with
      | .error e => .error e
      | .ok size =>
        match sliceRange offset size m2.memmory with
        | .error e => .error e
        | .ok data => .ok (stackPush (keccak256 data) m2)

/-- Shared shape of balance / extcodesize / extcodehash: pop an address,
look the account up (`unwrap` panics when absent), push `f account`. -/
def accountQuery (f : Account → Nat) (m : EVM) : Except EvmErr EVM :=
  if m.stack.length < 1 then .error .StackUnderflow
  else
    let address := (pop m).1
    let m1 := (pop m).2
    match lookupKV address m1.account_db with
    | none => .error .UnknownAccount
    | some account => .ok (stackPush (f account) m1)

/-- EVM::balance. -/
def balance : EVM → Except EvmErr EVM :=
  accountQuery (fun a => a.balance)

/-- EVM::extcodesize. -/
def extcodesize : EVM → Except EvmErr EVM :=
  accountQuery (fun a => a.code.length)

/-- EVM::extcodehash. -/
def extcodehash : EVM → Except EvmErr EVM :=
  accountQuery (fun a => keccak256 a.code)

/-- EVM::extcodecopy — pop address, memory offset, code offset, length;
slice the account's code (panicking when out of range), grow memory, copy. -/
def extcodecopy (m : EVM) : Except EvmErr EVM :=
  if m.stack.length < 4 then .error .StackUnderflow
  else
    let addr := (pop m).1
    let m1 := (pop m).2
    let mo := (pop m1).1
    let m2 := (pop m1).2
    match asU64 mo with
    | .error e => .error e
    | .ok mem_offset =>
      let co := (pop m2).1
      let m3 := (pop m2).2
      match asU64 co with
      | .error e => .error e
      | .ok code_offset =>
        let l := (pop m3).1
        let m4 := (pop m3).2
        match asU64 l with
        | .error e => .error e
        | .ok length =>
          match lookupKV addr m4.account_db with
          | none => .error .UnknownAccount
          | some account =>
            match sliceRange code_offset length account.code with
            | .error e => .error e
            | .ok codeSlice =>
              let mem := padTo (mem_offset + length) m4.memmory
              match copyFromSlice mem_offset length codeSlice mem with
              | .error e => .error e
              | .ok mem2 => .ok { m4 with memmory := mem2 }

/-- EVM::address. -/
def address (m : EVM) : Except EvmErr EVM :=
  .ok (stackPush m.transaction.this_addr m)

/-- EVM::origin. -/
def origin (m : EVM) : Except EvmErr EVM :=
  .ok (stackPush m.transaction.origin m)

/-- EVM::caller. -/
def caller (m : EVM) : Except EvmErr EVM :=
  .ok (stackPush m.transaction.caller m)

/-- EVM::callvalue. -/
def callvalue (m : EVM) : Except EvmErr EVM :=
  .ok (stackPush m.transaction.value m)

/-- EVM::log — the underflow check uses the parameter `num_topics`, but the
body then pops a THIRD word from the stack and shadows `num_topics` with
it, popping that many topic words; the data slice is taken from unextended
memory (panicking when out of range) and stored as a U256. -/
def logOp (num_topics : Nat) (m : EVM) : Except EvmErr EVM :=
  if m.stack.length < 2 + num_topics then .error .StackUnderflow
  else
    let mo := (pop m).1
    let m1 := (pop m).2
    match asU32 mo with
    | .error e => .error e
    | .ok mem_offset =>
      let l := (pop m1).1
      let m2 := (pop m1).2
      match asU32 l with
      | .error e => .error e
      | .ok length =>
        let nt := (pop m2).1
        let m3 := (pop m2).2
        match asU64 nt with
        | .error e => .error e
        | .ok shadowed_num_topics =>
          let topics := (popN shadowed_num_topics m3).1
          let m4 := (popN shadowed_num_topics m3).2
          match sliceRange mem_offset length m4.memmory with
          | .error e => .error e
          | .ok data =>
            match u256FromBytes data with
            | .error e => .error e
            | .ok dataWord =>
              .ok { m4 with
                    log := m4.log ++
                      [{ address := m4.transaction.this_addr
                         data := dataWord, topics := topics }] }

/-- EVM::return_op — pop offset and size (as_u32), grow memory to cover the
region, copy it into the return-data buffer. Does NOT stop the loop. -/
def return_op (m : EVM) : Except EvmErr EVM :=
  if m.stack.length < 2 then .error .StackUnderflow
  else
    let mo := (pop m).1
    let m1 := (pop m).2
    match asU32 mo with
    | .error e => .error e
    | .ok mem_offset =>
      let l := (pop m1).1
      let m2 := (pop m1).2
      match asU32 l with
      | .error e => .error e
      | .ok length =>
        let mem := padTo (mem_offset + length) m2.memmory
        .ok { m2 with memmory := mem
                      return_data := (mem.drop mem_offset).take length }

/-- EVM::return_data_size. -/
def return_data_size (m : EVM) : Except EvmErr EVM :=
  .ok (stackPush m.return_data.length m)

/-- EVM::return_data_copy — panics with "return data too short" when the
requested range exceeds the return data. -/
def return_data_copy (m : EVM) : Except EvmErr EVM :=
  if m.stack.length < 3 then .error .StackUnderflow
  else
    let mo := (pop m).1
    let m1 := (pop m).2
    match asU32 mo with
    | .error e => .error e
    | .ok mem_offset =>
      let ro := (pop m1).1
      let m2 := (pop m1).2
      match asU32 ro with
      | .error e => .error e
      | .ok return_offset =>
        let l := (pop m2).1
        let m3 := (pop m2).2
        match asU32 l with
        | .error e => .error e
        | .ok length =>
          if m3.return_data.length < return_offset + length then
            .error .MemoryBoundsError
          else
            let mem := padTo (mem_offset + length) m3.memmory
            match copyFromSlice mem_offset length
                ((m3.return_data.drop return_offset).take length) mem with
            | .error e => .error e
            | .ok mem2 => .ok { m3 with memmory := mem2 }

/-- EVM::revert — like return_op, and clears the success flag. Does NOT
stop the loop. -/
def revert (m : EVM) : Except EvmErr EVM :=
  if m.stack.length < 2 then .error .StackUnderflow
  else
    let mo := (pop m).1
    let m1 := (pop m).2
    match asU32 mo with
    | .error e => .error e
    | .ok mem_offset =>
      let l := (pop m1).1
      let m2 := (pop m1).2
      match asU32 l with
      | .error e => .error e
      | .ok length =>
        let mem := padTo (mem_offset + length) m2.memmory
        .ok { m2 with memmory := mem
                      return_data := (mem.drop mem_offset).take length
                      success := false }

/-- EVM::invalid — clears the success flag. Does NOT stop the loop. -/
def invalid (m : EVM) : Except EvmErr EVM :=
  .ok { m with success := false }

/-- EVM::call. Pops gas (as_u64), target, value (low_u32 as u64) and the
four memory operands; checks static mode, grows input memory, checks the
balance of the account at `transaction.caller` (insufficient balance pushes
0 and returns, leaving the loop to continue), transfers the value, then
builds a FRESH machine via EVM::init over the target's code and runs it
through `recur`; finally copies the nested return data into the output
region and pushes the nested success flag. -/
def call (recur : EVM → Except EvmErr EVM) (m : EVM) : Except EvmErr EVM :=
  if m.stack.length < 7 then .error .StackUnderflow
  else
    let g := (pop m).1
    let m1 := (pop m).2
    match asU64 g with
    | .error e => .error e
    | .ok _gas =>
      let to_addr := (pop m1).1
      let m2 := (pop m1).2
      let v := (pop m2).1
      let m3 := (pop m2).2
      let value := v % u32Mod
      if m3.is_static ∧ value ≠ 0 then .error .StaticStateViolation
      else
        let i1 := (pop m3).1
        let m4 := (pop m3).2
        match asU64 i1 with
        | .error e => .error e
        | .ok mem_in_start =>
          let i2 := (pop m4).1
          let m5 := (pop m4).2
          match asU64 i2 with
          | .error e => .error e
          | .ok mem_in_size =>
            let o1 := (pop m5).1
            let m6 := (pop m5).2
            match asU64 o1 with
            | .error e => .error e
            | .ok mem_out_start =>
              let o2 := (pop m6).1
              let m7 := (pop m6).2
              match asU64 o2 with
              | .error e => .error e
              | .ok mem_out_size =>
                let mem := padTo (mem_in_start + mem_in_size) m7.memmory
                let data := (mem.drop mem_in_start).take mem_in_size
                let m8 := { m7 with memmory := mem }
                match lookupKV m8.transaction.caller m8.account_db with
                | none => .error .UnknownAccount
                | some account_source =>
                  if account_source.balance < value then
                    .ok { m8 with success := false
                                  stack := 0 :: m8.stack }
                  else
                    let db1 := updateAt m8.transaction.caller
                      (fun a => { a with balance := a.balance - value })
                      m8.account_db
                    match lookupKV to_addr db1 with
                    | none => .error .UnknownAccount
                    | some account_target =>
                      match u64add account_target.balance value with
                      | .error e => .error e
                      | .ok newBal =>
                        let db2 := updateAt to_addr
                          (fun a => { a with balance := newBal }) db1
                        match u256FromBytes data with
                        | .error e => .error e
                        | .ok dataWord =>
                          let txn : Transaction :=
                            { defaultTransaction with
                              data := dataWord, value := value
                              caller := m8.transaction.this_addr
                              origin := m8.transaction.origin
                              gas_price := m8.transaction.gas_price
                              gas_limit := m8.transaction.gas_limit }
                          match recur (init account_target.code txn false) with
                          | .error e => .error e
                          | .ok evm_call =>
                            let mem2 :=
                              padTo (mem_out_size + mem_out_start) m8.memmory
                            match copyFromSlice mem_out_start mem_out_size
                                evm_call.return_data mem2 with
                            | .error e => .error e
                            | .ok mem3 =>
                              let m9 := { m8 with account_db := db2
                                                  memmory := mem3 }
                              if evm_call.success then
                                .ok (stackPush 1 m9)
                              else .ok (stackPush 0 m9)

/-- EVM::is_state_changing_opcode. -/
def is_state_changing_opcode (opcode : Nat) : Bool :=
  [0xF0, 0xF5, 0xFF, 0xA0, 0xA1, 0xA2, 0xA3, 0xA4, 0x55].contains opcode

/-- EVM::static_call — like call without a value transfer; the nested
machine is a FRESH EVM::init over the target's code with the static flag
forced on, and its context's this_addr is the target address. -/
def static_call (recur : EVM → Except EvmErr EVM) (m : EVM) :
    Except EvmErr EVM :=
  if m.stack.length < 6 then .error .StackUnderflow
  else
    let g := (pop m).1
    let m1 := (pop m).2
    match asU64 g with
    | .error e => .error e
    | .ok _gas =>
      let to_addr := (pop m1).1
      let m2 := (pop m1).2
      let i1 := (pop m2).1
      let m3 := (pop m2).2
      match asU64 i1 with
      | .error e => .error e
      | .ok mem_in_start =>
        let i2 := (pop m3).1
        let m4 := (pop m3).2
        match asU64 i2 with
        | .error e => .error e
        | .ok mem_in_size =>
          let o1 := (pop m4).1
          let m5 := (pop m4).2
          match asU64 o1 with
          | .error e => .error e
          | .ok mem_out_start =>
            let o2 := (pop m5).1
            let m6 := (pop m5).2
            match asU64 o2 with
            | .error e => .error e
            | .ok mem_out_size =>
              let mem := padTo (mem_in_start + mem_in_size) m6.memmory
              let data := (mem.drop mem_in_start).take mem_in_size
              let m7 := { m6 with memmory := mem }
              match lookupKV to_addr m7.account_db with
              | none => .error .UnknownAccount
              | some account_target =>
                match u256FromBytes data with
                | .error e => .error e
                | .ok dataWord =>
                  let ctx : Transaction :=
                    { defaultTransaction with
                      data := dataWord, value := 0
                      caller := m7.transaction.this_addr
                      origin := m7.transaction.origin
                      this_addr := to_addr
                      gas_price := m7.transaction.gas_price
                      gas_limit := m7.transaction.gas_limit }
                  match recur (init account_target.code ctx true) with
                  | .error e => .error e
                  | .ok evm_staticcall =>
                    let mem2 :=
                      padTo (mem_out_start + mem_out_size) m7.memmory
                    match copyFromSlice mem_out_start mem_out_size
                        evm_staticcall.return_data mem2 with
                    | .error e => .error e
                    | .ok mem3 =>
                      let m8 := { m7 with memmory := mem3 }
                      if evm_staticcall.success then
                        .ok (stackPush 1 m8)
                      else .ok (stackPush 0 m8)

/-- EVM::selfdestruct — pops ONE address, lazily creates the account at
that address (entry / or_insert), reads and zeroes ITS balance, then adds
the read balance back to the account at the SAME address; the executing
account (`transaction.this_addr`) is never consulted. -/
def selfdestruct (m : EVM) : Except EvmErr EVM :=
  if m.stack.length < 1 then .error .StackUnderflow
  else
    let addr := (pop m).1
    let m1 := (pop m).2
    let db0 :=
      if (lookupKV addr m1.account_db).isSome then m1.account_db
      else m1.account_db ++
        [(addr, { balance := 0, nonce := 0, storage := [], code := [] })]
    let bal :=
      ((lookupKV addr db0).getD
        { balance := 0, nonce := 0, storage := [], code := [] }).balance
    let db1 := updateAt addr (fun a => { a with balance := 0 }) db0
    let db2 := updateAt addr (fun a => { a with balance := a.balance + bal }) db1
    .ok { m1 with account_db := db2 }

/-- EVM::gas — pushes `gas_limit - gas_used` (a u64 subtraction that panics
when gas_used exceeds the limit). -/
def gasOp (m : EVM) : Except EvmErr EVM :=
  if m.transaction.gas_limit < m.gas_used then .error .U64Underflow
  else .ok (stackPush (m.transaction.gas_limit - m.gas_used) m)

/-- EVM::push — read `size` immediate bytes from the code (slicing panics
when they run past the end), push their big-endian value, advance the pc
past them, and charge the PUSH1 entry of the GASCOST table. -/
def push (size : Nat) (m : EVM) : Except EvmErr EVM :=
  match sliceRange m.pc size m.code with
  | .error e => .error e
  | .ok data =>
    .ok { m with stack := beToNat data :: m.stack
                 pc := m.pc + size
                 gas_used := m.gas_used + (lookupKV PUSH1 GASCOST).getD 0 }

/-- Wrap a handler result as a non-halting dispatch outcome (the loop
continues after the handler unless the arm breaks). -/
def cont (r : Except EvmErr EVM) : Except EvmErr (EVM × Bool) :=
  match r with
  | .error e => .error e
  | .ok m => .ok (m, false)

/-- One dispatch of the match in EVM::run, on the already-fetched opcode
byte (the pc has been advanced past it). The arm ORDER is the source's
match-arm order; in particular the static-mode guard arm sits between the
CALL arm and the STATICCALL arm, and there are arms for LOG0, LOG1, LOG3
(with 2 topics) and LOG4 (with 3 topics) but none for LOG2. The returned
Bool is true when the arm breaks the loop (only STOP; its handler merely
prints). `recur` runs a nested machine (CALL / STATICCALL). -/
def execOp (recur : EVM → Except EvmErr EVM) (op : Nat) (m : EVM) :
    Except EvmErr (EVM × Bool) :=
  if PUSH1 ≤ op ∧ op ≤ PUSH32 then cont (push (op - PUSH1 + 1) m)
  else if op = PUSH0 then cont (.ok (stackPush 0 m))
  else if op = POP then cont (.ok (pop m).2)
  else if op = ADD then cont (add m)
  else if op = MUL then cont (mul m)
  else if op = SUB then cont (sub m)
  else if op = DIV then cont (div m)
  else if op = SDIV then cont (sdiv m)
  else if op = MOD then cont (modOp m)
  else if op = EXP then cont (expOp m)
  else if op = LT then cont (lt m)
  else if op = GT then cont (gt m)
  else if op = EQ then cont (eqOp m)
  else if op = ISZERO then cont (iszero m)
  else if op = AND then cont (and_op m)
  else if op = OR then cont (orOp m)
  else if op = XOR then cont (xorOp m)
  else if op = NOT then cont (notOp m)
  else if op = SHL then cont (shl m)
  else if op = SHR then cont (shr m)
  else if op = BYTE then cont (byte m)
  else if op = MSTORE then cont (mstore m)
  else if op = MSTORE8 then cont (mstore8 m)
  else if op = MLOAD then cont (mload m)
  else if op = MSIZE then cont (msize m)
  else if op = SSTORE then cont (sstore m)
  else if op = SLOAD then cont (sload m)
  else if op = STOP then .ok (m, true)
  else if op = JUMP then cont (jump m)
  else if op = JUMPDEST then cont (.ok m)
  else if op = JUMPI then cont (jumpi m)
  else if op = BLOCKHASH then cont (blockhash m)
  else if op = COINBASE then cont (coinbase m)
  else if op = TIMESTAMP then cont (timestamp m)
  else if op = NUMBER then cont (number m)
  else if op = PREVRANDAO then cont (prevrandao m)
  else if op = GASLIMIT then cont (gaslimit m)
  else if op = CHAINID then cont (chainid m)
  else if op = SELFBALANCE then cont (selfbalance m)
  else if op = BASEFEE then cont (basefee m)
  else if DUP1 ≤ op ∧ op ≤ DUP16 then cont (dup (op - DUP1 + 1) m)
  else if SWAP1 ≤ op ∧ op ≤ SWAP16 then cont (swap (op - SWAP1 + 1) m)
  else if op = SHA3 then cont (sha3 m)
  else if op = BALANCE then cont (balance m)
  else if op = EXTCODESIZE then cont (extcodesize m)
  else if op = EXTCODECOPY then cont (extcodecopy m)
  else if op = EXTCODEHASH then cont (extcodehash m)
  else if op = ADDRESS then cont (address m)
  else if op = ORIGIN then cont (origin m)
  else if op = CALLER then cont (caller m)
  else if op = CALLVALUE then cont (callvalue m)
  else if op = LOG0 then cont (logOp 0 m)
  else if op = LOG1 then cont (logOp 1 m)
  else if op = LOG3 then cont (logOp 2 m)
  else if op = LOG4 then cont (logOp 3 m)
  else if op = RETURN then cont (return_op m)
  else if op = RETURNDATASIZE then cont (return_data_size m)
  else if op = RETURNDATACOPY then cont (return_data_copy m)
  else if op = REVERT then cont (revert m)
  else if op = INVALID then cont (invalid m)
  else if op = CALL then cont (call recur m)
  else if m.is_static ∧ is_state_changing_opcode op then
    .error .StaticStateViolation
  else if op = STATICCALL then cont (static_call recur m)
  else if op = SELFDESTRUCT then cont (selfdestruct m)
  else if op = GAS then cont (gasOp m)
  else .error .UnknownOpcode

/-- EVM::run, bounded by fuel (both loop iterations and nested-call depth
draw on it). Each iteration fetches the byte at the pc (the loop runs while
`pc < code.len()`), advances the pc, dispatches, and — unless the arm broke
the loop — fails with OutOfGas when accumulated gas exceeds the context's
gas limit, then continues. -/
def run : Nat → EVM → Except EvmErr EVM
  | 0, _ => .error .OutOfFuel
  | fuel + 1, m =>
    if m.pc < m.code.length then
      let op := m.code.getD m.pc 0
      match execOp (run fuel) op { m with pc := m.pc + 1 } with
      | .error e => .error e
      | .ok (m2, halted) =>
        if halted then .ok m2
        else if m2.transaction.gas_limit < m2.gas_used then .error .OutOfGas
        else run fuel m2
    else .ok m

/-! Concrete machines used as failing inputs, counterexamples and
witnesses. -/

/-- A static-mode machine whose code is PUSH1 1, PUSH1 2, SSTORE. -/
def c1Machine : EVM :=
  init [0x60, 0x01, 0x60, 0x02, 0x55] defaultTransaction true

/-- A parent machine about to CALL account 2, whose code is PUSH1 5,
SELFDESTRUCT (which creates account 5 in whichever ledger the nested
machine runs over). The stack already holds the seven CALL operands. -/
def c2Parent : EVM :=
  { init [0xf1] { defaultTransaction with caller := 1, this_addr := 3 } false with
    stack := [0, 2, 0, 0, 0, 0, 0]
    account_db :=
      [(1, { balance := 10, nonce := 0, storage := [], code := [] }),
       (2, { balance := 0, nonce := 0, storage := []
             code := [0x60, 0x05, 0xff] })] }

/-- The context EVM::call derives for the nested machine spawned by
`c2Parent`'s CALL. -/
def c2NestedTxn : Transaction :=
  { defaultTransaction with
    data := 0, value := 0, caller := 3,
    origin := defaultTransaction.origin, gas_price := 1, gas_limit := 21000 }

/-- The nested machine EVM::call spawns for `c2Parent`'s CALL: a fresh
EVM::init over the target's code. -/
def c2Nested : EVM := init [0x60, 0x05, 0xff] c2NestedTxn false

/-- Executing account 0xA holds 100; SELFDESTRUCT pops target 0xB
holding 7. -/
def c3Machine : EVM :=
  { init [0xff] { defaultTransaction with this_addr := 0xA } false with
    stack := [0xB]
    account_db :=
      [(0xA, { balance := 100, nonce := 0, storage := [], code := [0xff] }),
       (0xB, { balance := 7, nonce := 0, storage := [], code := [] })] }

/-- PUSH1 0, PUSH1 0, RETURN, PUSH1 5: code with an instruction after
RETURN. -/
def c4Machine : EVM :=
  init [0x60, 0x00, 0x60, 0x00, 0xf3, 0x60, 0x05] defaultTransaction false

/-- A machine whose next opcode is STOP. -/
def c4StopMachine : EVM := init [0x00] defaultTransaction false

/-- A machine with the seven CALL operands on the stack, transferring 200
from the default caller account (balance 100). -/
def c5Machine : EVM :=
  { init [] defaultTransaction false with stack := [0, 2, 200, 0, 0, 0, 0] }

/-- A machine with 3 on top of the stack and 5 below it. -/
def c6Machine : EVM :=
  { init [] defaultTransaction false with stack := [3, 5] }

/-- A machine with an empty stack about to execute POP. -/
def c7Machine : EVM := init [0x50] defaultTransaction false

/-- A machine with offset 0 and value 0xAB on the stack, about to execute
MSTORE8. -/
def c8Machine : EVM :=
  { init [0x53] defaultTransaction false with stack := [0, 0xAB] }

/-- A machine about to execute LOG1 with stack (top first) offset 0,
size 0, topic word 5. -/
def c9Machine : EVM :=
  { init [0xa1] defaultTransaction false with stack := [0, 0, 5] }

/-- A gas-limit-0 machine whose code contains no PUSH1..PUSH32 byte:
PUSH0 x5, CALLER, PUSH0, CALL. The CALL target is the hard-coded caller
account, whose code is PUSH1 0, PUSH1 0. -/
def c10Machine : EVM :=
  init [0x5f, 0x5f, 0x5f, 0x5f, 0x5f, 0x33, 0x5f, 0xf1]
    { defaultTransaction with gas_limit := 0 } false

/-- A machine whose code is a single STOP, used to witness the gas
theorem. -/
def c10StopMachine : EVM := init [0x00] defaultTransaction false

/-! Closed evaluation theorems: failing inputs and counterexamples. -/

/-- C1: the claim says that a static-mode Machine fetching SSTORE fails
with StaticStateViolation before the handler runs, with no observable
mutation. The code contradicts it: the SSTORE match arm precedes the
static-mode guard arm, so the static machine `c1Machine` executes SSTORE
normally — the run succeeds with the store (2, 1) written to storage and
the success flag still true. -/
theorem c1_static_sstore_mutates_storage :
    (run 10 c1Machine).map (fun m => (m.success, m.storage, m.is_static)) =
      .ok (true, [(2, 1)], true) := by
  rfl

/-- C2 counterexample: the nested machine spawned by `c2Parent`'s CALL
runs SELFDESTRUCT, which creates account 5 in the ledger it runs over
(second conjunct: the spawned machine's run ends with account 5 present),
yet after the CALL the resumed parent's ledger has no account 5 and is
exactly its own two seed accounts after the (zero) value transfer — the
nested Machine does not reference the same AccountLedger. -/
theorem c2_shared_ledger_counterexample :
    (run 10 c2Parent).map
        (fun m => (lookupKV 5 m.account_db, m.stack, m.account_db)) =
      .ok (none, [1],
        [(1, { balance := 10, nonce := 0, storage := [], code := [] }),
         (2, { balance := 0, nonce := 0, storage := []
               code := [0x60, 0x05, 0xff] })])
  ∧ (run 8 c2Nested).map (fun m => lookupKV 5 m.account_db) =
      .ok (some { balance := 0, nonce := 0, storage := [], code := [] }) := by
  exact ⟨rfl, rfl⟩

/-- C3: the claim says SELFDESTRUCT moves the executing account's entire
balance to the popped target. The code contradicts it: on `c3Machine`
(executing account 0xA with balance 100, target 0xB with balance 7) the
handler zeroes and then restores the TARGET's balance, leaving 0xA at 100
and 0xB at 7. -/
theorem c3_selfdestruct_failing_input :
    (run 3 c3Machine).map
        (fun m => (lookupKV 0xA m.account_db, lookupKV 0xB m.account_db)) =
      .ok
        (some { balance := 100, nonce := 0, storage := [], code := [0xff] },
         some { balance := 7, nonce := 0, storage := [], code := [] }) := by
  rfl

/-- C4 counterexample: on `c4Machine` (PUSH1 0, PUSH1 0, RETURN, PUSH1 5)
the run ends with 5 on the stack and the pc at the end of the code — the
PUSH1 5 situated after the RETURN was executed, so RETURN is not a
terminal opcode in the code. -/
theorem c4_execution_continues_after_return :
    (run 10 c4Machine).map (fun m => (m.stack, m.pc)) = .ok ([5], 7) := by
  rfl

/-- C7 counterexample: the claim says every opcode that consumes stack
elements, including POP, fails with StackUnderflow when the stack holds
too few elements. On `c7Machine` (empty stack, code POP) the run succeeds
with the machine unchanged except for the advanced pc — POP silently pops
nothing. -/
theorem c7_pop_empty_no_underflow :
    run 3 c7Machine = .ok { c7Machine with pc := 1 } := by
  rfl

/-- C8: the claim says MSTORE8 writes exactly the low-order byte of the
value. The code contradicts it on every input: it copies the 8-byte slice
`res[24..32]` into the 32-byte region `memmory[offset..offset+32]`, and
`copy_from_slice` panics on the length mismatch; `c8Machine` (offset 0,
value 0xAB) fails instead of writing a byte. -/
theorem c8_mstore8_always_panics :
    run 3 c8Machine = .error .SliceLenMismatch := by
  rfl

/-- C9: the claim says LOG1 pops offset, size, and exactly one topic word.
The code contradicts it: the handler pops a third word and uses it as the
topic count (shadowing the opcode-fixed parameter), so `c9Machine` (stack
offset 0, size 0, topic word 5) appends a log entry with FIVE zero topics
instead of the single topic 5. -/
theorem c9_log_pops_topic_count :
    (run 3 c9Machine).map (fun m => m.log) =
      .ok [{ address := addrB, data := 0, topics := [0, 0, 0, 0, 0] }] := by
  rfl

/-- C10 counterexample: `c10Machine`'s code contains no PUSH1..PUSH32 byte
(only PUSH0, CALLER and CALL), yet with gas limit 0 its run fails with
OutOfGas: the CALL's nested machine executes a PUSH1 of the target
account's code and its out-of-gas panic propagates to the outer run. -/
theorem c10_no_push_out_of_gas_via_call :
    run 20 c10Machine = .error .OutOfGas := by
  rfl


/-! Helper lemmas about the stack primitives. -/

theorem pop_snd_gas_used (m : EVM) : (pop m).2.gas_used = m.gas_used := by
  cases h : m.stack <;> simp [pop, h]

theorem pop_snd_code (m : EVM) : (pop m).2.code = m.code := by
  cases h : m.stack <;> simp [pop, h]

theorem pop_snd_transaction (m : EVM) : (pop m).2.transaction = m.transaction := by
  cases h : m.stack <;> simp [pop, h]

theorem binop_eq (f : Nat → Nat → Except EvmErr Nat) (m : EVM) (a b : Nat)
    (rest : List Nat) (hStk : m.stack = a :: b :: rest) :
    binop f m = match f a b with
      | .error e => .error e
      | .ok res => .ok { m with stack := res :: rest } := by
  unfold binop
  rw [if_neg (by rw [hStk]; simp)]
  simp only [pop, hStk]
  cases hf : f a b <;> simp [hf, stackPush]

theorem u64add_ok (x y n : Nat) (h : u64add x y = .ok n) : n = x + y := by
  unfold u64add at h; split_ifs at h <;> simp_all

theorem updateAt_congr {A : Type} (k : Nat) (f g : A → A)
    (l : List (Nat × A)) (a : A)
    (hl : lookupKV k l = some a) (hfg : f a = g a) :
    updateAt k f l = updateAt k g l := by
  induction l with
  | nil => rfl
  | cons hd tl ih =>
    obtain ⟨k1, v⟩ := hd
    by_cases hk : k1 = k
    · subst hk
      unfold lookupKV at hl
      rw [if_pos rfl] at hl
      cases hl
      unfold updateAt
      rw [if_pos rfl, if_pos rfl, hfg]
    · unfold lookupKV at hl
      rw [if_neg hk] at hl
      unfold updateAt
      rw [if_neg hk, if_neg hk, ih hl]

/-! Frame machinery: no handler except push touches gas_used, code or the
transaction, and no handler raises OutOfGas (only the dispatch loop's gas
check does). Used for the gas-accounting and termination claims. -/

def GasOkE (m : EVM) (r : Except EvmErr EVM) : Prop :=
  r ≠ .error .OutOfGas ∧
  (∀ m2, r = .ok m2 → m2.gas_used = m.gas_used ∧ m2.code = m.code ∧
    m2.transaction = m.transaction)

theorem asU64_error_iff (w : Nat) (e : EvmErr) :
    asU64 w = .error e ↔ (¬ w < u64Mod ∧ e = .CastOverflow) := by
  unfold asU64; split_ifs with h <;> simp [h, eq_comm]

theorem asU32_error_iff (w : Nat) (e : EvmErr) :
    asU32 w = .error e ↔ (¬ w < u32Mod ∧ e = .CastOverflow) := by
  unfold asU32; split_ifs with h <;> simp [h, eq_comm]

theorem u64add_error_iff (x y : Nat) (e : EvmErr) :
    u64add x y = .error e ↔ (¬ x + y < u64Mod ∧ e = .U64Overflow) := by
  unfold u64add; split_ifs with h <;> simp [h, eq_comm]

theorem sliceRange_error_iff {A : Type} (start len : Nat) (xs : List A)
    (e : EvmErr) :
    sliceRange start len xs = .error e ↔
      (¬ start + len ≤ xs.length ∧ e = .SliceOutOfRange) := by
  unfold sliceRange; split_ifs with h <;> simp [h, eq_comm]

theorem copyFromSlice_error_iff (start len : Nat) (src mem : List Nat)
    (e : EvmErr) :
    copyFromSlice start len src mem = .error e ↔
      (¬ src.length = len ∧ e = .SliceLenMismatch) := by
  unfold copyFromSlice; split_ifs with h <;> simp [h, eq_comm]

theorem u256FromBytes_error_iff (bs : List Nat) (e : EvmErr) :
    u256FromBytes bs = .error e ↔ (¬ bs.length ≤ 32 ∧ e = .WordOverflow) := by
  unfold u256FromBytes; split_ifs with h <;> simp [h, eq_comm]

theorem popN_snd_gas_used (n : Nat) :
    ∀ m : EVM, (popN n m).2.gas_used = m.gas_used := by
  induction n with
  | zero => intro m; rfl
  | succ k ih => intro m; simp [popN, ih, pop_snd_gas_used]

theorem popN_snd_code (n : Nat) :
    ∀ m : EVM, (popN n m).2.code = m.code := by
  induction n with
  | zero => intro m; rfl
  | succ k ih => intro m; simp [popN, ih, pop_snd_code]

theorem popN_snd_transaction (n : Nat) :
    ∀ m : EVM, (popN n m).2.transaction = m.transaction := by
  induction n with
  | zero => intro m; rfl
  | succ k ih => intro m; simp [popN, ih, pop_snd_transaction]

theorem gasOkE_mstore (m : EVM) : GasOkE m (mstore m) := by
  constructor
  · intro h
    unfold mstore at h
    try simp only [] at h
    try split_ifs at h
    all_goals repeat' split at h
    all_goals try subst_vars
    all_goals simp_all [asU64_error_iff, asU32_error_iff, u64add_error_iff, sliceRange_error_iff, copyFromSlice_error_iff, u256FromBytes_error_iff]
  · intro m2 h
    unfold mstore at h
    try simp only [] at h
    try split_ifs at h
    all_goals repeat' split at h
    all_goals try subst_vars
    all_goals simp_all [stackPush, pop_snd_gas_used, pop_snd_code, pop_snd_transaction, popN_snd_gas_used, popN_snd_code, popN_snd_transaction]
    all_goals try subst_vars
    all_goals try simp_all [stackPush, pop_snd_gas_used, pop_snd_code, pop_snd_transaction, popN_snd_gas_used, popN_snd_code, popN_snd_transaction]

theorem gasOkE_mstore8 (m : EVM) : GasOkE m (mstore8 m) := by
  constructor
  · intro h
    unfold mstore8 at h
    try simp only [] at h
    try split_ifs at h
    all_goals repeat' split at h
    all_goals try subst_vars
    all_goals simp_all [asU64_error_iff, asU32_error_iff, u64add_error_iff, sliceRange_error_iff, copyFromSlice_error_iff, u256FromBytes_error_iff]
  · intro m2 h
    unfold mstore8 at h
    try simp only [] at h
    try split_ifs at h
    all_goals repeat' split at h
    all_goals try subst_vars
    all_goals simp_all [stackPush, pop_snd_gas_used, pop_snd_code, pop_snd_transaction, popN_snd_gas_used, popN_snd_code, popN_snd_transaction]
    all_goals try subst_vars
    all_goals try simp_all [stackPush, pop_snd_gas_used, pop_snd_code, pop_snd_transaction, popN_snd_gas_used, popN_snd_code, popN_snd_transaction]

theorem gasOkE_mload (m : EVM) : GasOkE m (mload m) := by
  constructor
  · intro h
    unfold mload at h
    try simp only [] at h
    try split_ifs at h
    all_goals repeat' split at h
    all_goals try subst_vars
    all_goals simp_all [asU64_error_iff, asU32_error_iff, u64add_error_iff, sliceRange_error_iff, copyFromSlice_error_iff, u256FromBytes_error_iff]
  · intro m2 h
    unfold mload at h
    try simp only [] at h
    try split_ifs at h
    all_goals repeat' split at h
    all_goals try subst_vars
    all_goals simp_all [stackPush, pop_snd_gas_used, pop_snd_code, pop_snd_transaction, popN_snd_gas_used, popN_snd_code, popN_snd_transaction]
    all_goals try subst_vars
    all_goals try simp_all [stackPush, pop_snd_gas_used, pop_snd_code, pop_snd_transaction, popN_snd_gas_used, popN_snd_code, popN_snd_transaction]

theorem gasOkE_msize (m : EVM) : GasOkE m (msize m) := by
  constructor
  · intro h
    unfold msize at h
    try simp only [] at h
    try split_ifs at h
    all_goals repeat' split at h
    all_goals try subst_vars
    all_goals simp_all [asU64_error_iff, asU32_error_iff, u64add_error_iff, sliceRange_error_iff, copyFromSlice_error_iff, u256FromBytes_error_iff]
  · intro m2 h
    unfold msize at h
    try simp only [] at h
    try split_ifs at h
    all_goals repeat' split at h
    all_goals try subst_vars
    all_goals simp_all [stackPush, pop_snd_gas_used, pop_snd_code, pop_snd_transaction, popN_snd_gas_used, popN_snd_code, popN_snd_transaction]
    all_goals try subst_vars
    all_goals try simp_all [stackPush, pop_snd_gas_used, pop_snd_code, pop_snd_transaction, popN_snd_gas_used, popN_snd_code, popN_snd_transaction]

theorem gasOkE_sstore (m : EVM) : GasOkE m (sstore m) := by
  constructor
  · intro h
    unfold sstore at h
    try simp only [] at h
    try split_ifs at h
    all_goals repeat' split at h
    all_goals try subst_vars
    all_goals simp_all [asU64_error_iff, asU32_error_iff, u64add_error_iff, sliceRange_error_iff, copyFromSlice_error_iff, u256FromBytes_error_iff]
  · intro m2 h
    unfold sstore at h
    try simp only [] at h
    try split_ifs at h
    all_goals repeat' split at h
    all_goals try subst_vars
    all_goals simp_all [stackPush, pop_snd_gas_used, pop_snd_code, pop_snd_transaction, popN_snd_gas_used, popN_snd_code, popN_snd_transaction]
    all_goals try subst_vars
    all_goals try simp_all [stackPush, pop_snd_gas_used, pop_snd_code, pop_snd_transaction, popN_snd_gas_used, popN_snd_code, popN_snd_transaction]

theorem gasOkE_sload (m : EVM) : GasOkE m (sload m) := by
  constructor
  · intro h
    unfold sload at h
    try simp only [] at h
    try split_ifs at h
    all_goals repeat' split at h
    all_goals try subst_vars
    all_goals simp_all [asU64_error_iff, asU32_error_iff, u64add_error_iff, sliceRange_error_iff, copyFromSlice_error_iff, u256FromBytes_error_iff]
  · intro m2 h
    unfold sload at h
    try simp only [] at h
    try split_ifs at h
    all_goals repeat' split at h
    all_goals try subst_vars
    all_goals simp_all [stackPush, pop_snd_gas_used, pop_snd_code, pop_snd_transaction, popN_snd_gas_used, popN_snd_code, popN_snd_transaction]
    all_goals try subst_vars
    all_goals try simp_all [stackPush, pop_snd_gas_used, pop_snd_code, pop_snd_transaction, popN_snd_gas_used, popN_snd_code, popN_snd_transaction]

theorem gasOkE_jump (m : EVM) : GasOkE m (jump m) := by
  constructor
  · intro h
    unfold jump at h
    try simp only [] at h
    try split_ifs at h
    all_goals repeat' split at h
    all_goals try subst_vars
    all_goals simp_all [asU64_error_iff, asU32_error_iff, u64add_error_iff, sliceRange_error_iff, copyFromSlice_error_iff, u256FromBytes_error_iff]
  · intro m2 h
    unfold jump at h
    try simp only [] at h
    try split_ifs at h
    all_goals repeat' split at h
    all_goals try subst_vars
    all_goals simp_all [stackPush, pop_snd_gas_used, pop_snd_code, pop_snd_transaction, popN_snd_gas_used, popN_snd_code, popN_snd_transaction]
    all_goals try subst_vars
    all_goals try simp_all [stackPush, pop_snd_gas_used, pop_snd_code, pop_snd_transaction, popN_snd_gas_used, popN_snd_code, popN_snd_transaction]

theorem gasOkE_jumpi (m : EVM) : GasOkE m (jumpi m) := by
  constructor
  · intro h
    unfold jumpi at h
    try simp only [] at h
    try split_ifs at h
    all_goals repeat' split at h
    all_goals try subst_vars
    all_goals simp_all [asU64_error_iff, asU32_error_iff, u64add_error_iff, sliceRange_error_iff, copyFromSlice_error_iff, u256FromBytes_error_iff]
  · intro m2 h
    unfold jumpi at h
    try simp only [] at h
    try split_ifs at h
    all_goals repeat' split at h
    all_goals try subst_vars
    all_goals simp_all [stackPush, pop_snd_gas_used, pop_snd_code, pop_snd_transaction, popN_snd_gas_used, popN_snd_code, popN_snd_transaction]
    all_goals try subst_vars
    all_goals try simp_all [stackPush, pop_snd_gas_used, pop_snd_code, pop_snd_transaction, popN_snd_gas_used, popN_snd_code, popN_snd_transaction]

theorem gasOkE_blockhash (m : EVM) : GasOkE m (blockhash m) := by
  constructor
  · intro h
    unfold blockhash at h
    try simp only [] at h
    try split_ifs at h
    all_goals repeat' split at h
    all_goals try subst_vars
    all_goals simp_all [asU64_error_iff, asU32_error_iff, u64add_error_iff, sliceRange_error_iff, copyFromSlice_error_iff, u256FromBytes_error_iff]
  · intro m2 h
    unfold blockhash at h
    try simp only [] at h
    try split_ifs at h
    all_goals repeat' split at h
    all_goals try subst_vars
    all_goals simp_all [stackPush, pop_snd_gas_used, pop_snd_code, pop_snd_transaction, popN_snd_gas_used, popN_snd_code, popN_snd_transaction]
    all_goals try subst_vars
    all_goals try simp_all [stackPush, pop_snd_gas_used, pop_snd_code, pop_snd_transaction, popN_snd_gas_used, popN_snd_code, popN_snd_transaction]

theorem gasOkE_coinbase (m : EVM) : GasOkE m (coinbase m) := by
  constructor
  · intro h
    unfold coinbase at h
    try simp only [] at h
    try split_ifs at h
    all_goals repeat' split at h
    all_goals try subst_vars
    all_goals simp_all [asU64_error_iff, asU32_error_iff, u64add_error_iff, sliceRange_error_iff, copyFromSlice_error_iff, u256FromBytes_error_iff]
  · intro m2 h
    unfold coinbase at h
    try simp only [] at h
    try split_ifs at h
    all_goals repeat' split at h
    all_goals try subst_vars
    all_goals simp_all [stackPush, pop_snd_gas_used, pop_snd_code, pop_snd_transaction, popN_snd_gas_used, popN_snd_code, popN_snd_transaction]
    all_goals try subst_vars
    all_goals try simp_all [stackPush, pop_snd_gas_used, pop_snd_code, pop_snd_transaction, popN_snd_gas_used, popN_snd_code, popN_snd_transaction]

theorem gasOkE_timestamp (m : EVM) : GasOkE m (timestamp m) := by
  constructor
  · intro h
    unfold timestamp at h
    try simp only [] at h
    try split_ifs at h
    all_goals repeat' split at h
    all_goals try subst_vars
    all_goals simp_all [asU64_error_iff, asU32_error_iff, u64add_error_iff, sliceRange_error_iff, copyFromSlice_error_iff, u256FromBytes_error_iff]
  · intro m2 h
    unfold timestamp at h
    try simp only [] at h
    try split_ifs at h
    all_goals repeat' split at h
    all_goals try subst_vars
    all_goals simp_all [stackPush, pop_snd_gas_used, pop_snd_code, pop_snd_transaction, popN_snd_gas_used, popN_snd_code, popN_snd_transaction]
    all_goals try subst_vars
    all_goals try simp_all [stackPush, pop_snd_gas_used, pop_snd_code, pop_snd_transaction, popN_snd_gas_used, popN_snd_code, popN_snd_transaction]

theorem gasOkE_number (m : EVM) : GasOkE m (number m) := by
  constructor
  · intro h
    unfold number at h
    try simp only [] at h
    try split_ifs at h
    all_goals repeat' split at h
    all_goals try subst_vars
    all_goals simp_all [asU64_error_iff, asU32_error_iff, u64add_error_iff, sliceRange_error_iff, copyFromSlice_error_iff, u256FromBytes_error_iff]
  · intro m2 h
    unfold number at h
    try simp only [] at h
    try split_ifs at h
    all_goals repeat' split at h
    all_goals try subst_vars
    all_goals simp_all [stackPush, pop_snd_gas_used, pop_snd_code, pop_snd_transaction, popN_snd_gas_used, popN_snd_code, popN_snd_transaction]
    all_goals try subst_vars
    all_goals try simp_all [stackPush, pop_snd_gas_used, pop_snd_code, pop_snd_transaction, popN_snd_gas_used, popN_snd_code, popN_snd_transaction]

theorem gasOkE_prevrandao (m : EVM) : GasOkE m (prevrandao m) := by
  constructor
  · intro h
    unfold prevrandao at h
    try simp only [] at h
    try split_ifs at h
    all_goals repeat' split at h
    all_goals try subst_vars
    all_goals simp_all [asU64_error_iff, asU32_error_iff, u64add_error_iff, sliceRange_error_iff, copyFromSlice_error_iff, u256FromBytes_error_iff]
  · intro m2 h
    unfold prevrandao at h
    try simp only [] at h
    try split_ifs at h
    all_goals repeat' split at h
    all_goals try subst_vars
    all_goals simp_all [stackPush, pop_snd_gas_used, pop_snd_code, pop_snd_transaction, popN_snd_gas_used, popN_snd_code, popN_snd_transaction]
    all_goals try subst_vars
    all_goals try simp_all [stackPush, pop_snd_gas_used, pop_snd_code, pop_snd_transaction, popN_snd_gas_used, popN_snd_code, popN_snd_transaction]

theorem gasOkE_gaslimit (m : EVM) : GasOkE m (gaslimit m) := by
  constructor
  · intro h
    unfold gaslimit at h
    try simp only [] at h
    try split_ifs at h
    all_goals repeat' split at h
    all_goals try subst_vars
    all_goals simp_all [asU64_error_iff, asU32_error_iff, u64add_error_iff, sliceRange_error_iff, copyFromSlice_error_iff, u256FromBytes_error_iff]
  · intro m2 h
    unfold gaslimit at h
    try simp only [] at h
    try split_ifs at h
    all_goals repeat' split at h
    all_goals try subst_vars
    all_goals simp_all [stackPush, pop_snd_gas_used, pop_snd_code, pop_snd_transaction, popN_snd_gas_used, popN_snd_code, popN_snd_transaction]
    all_goals try subst_vars
    all_goals try simp_all [stackPush, pop_snd_gas_used, pop_snd_code, pop_snd_transaction, popN_snd_gas_used, popN_snd_code, popN_snd_transaction]

theorem gasOkE_chainid (m : EVM) : GasOkE m (chainid m) := by
  constructor
  · intro h
    unfold chainid at h
    try simp only [] at h
    try split_ifs at h
    all_goals repeat' split at h
    all_goals try subst_vars
    all_goals simp_all [asU64_error_iff, asU32_error_iff, u64add_error_iff, sliceRange_error_iff, copyFromSlice_error_iff, u256FromBytes_error_iff]
  · intro m2 h
    unfold chainid at h
    try simp only [] at h
    try split_ifs at h
    all_goals repeat' split at h
    all_goals try subst_vars
    all_goals simp_all [stackPush, pop_snd_gas_used, pop_snd_code, pop_snd_transaction, popN_snd_gas_used, popN_snd_code, popN_snd_transaction]
    all_goals try subst_vars
    all_goals try simp_all [stackPush, pop_snd_gas_used, pop_snd_code, pop_snd_transaction, popN_snd_gas_used, popN_snd_code, popN_snd_transaction]

theorem gasOkE_selfbalance (m : EVM) : GasOkE m (selfbalance m) := by
  constructor
  · intro h
    unfold selfbalance at h
    try simp only [] at h
    try split_ifs at h
    all_goals repeat' split at h
    all_goals try subst_vars
    all_goals simp_all [asU64_error_iff, asU32_error_iff, u64add_error_iff, sliceRange_error_iff, copyFromSlice_error_iff, u256FromBytes_error_iff]
  · intro m2 h
    unfold selfbalance at h
    try simp only [] at h
    try split_ifs at h
    all_goals repeat' split at h
    all_goals try subst_vars
    all_goals simp_all [stackPush, pop_snd_gas_used, pop_snd_code, pop_snd_transaction, popN_snd_gas_used, popN_snd_code, popN_snd_transaction]
    all_goals try subst_vars
    all_goals try simp_all [stackPush, pop_snd_gas_used, pop_snd_code, pop_snd_transaction, popN_snd_gas_used, popN_snd_code, popN_snd_transaction]

theorem gasOkE_basefee (m : EVM) : GasOkE m (basefee m) := by
  constructor
  · intro h
    unfold basefee at h
    try simp only [] at h
    try split_ifs at h
    all_goals repeat' split at h
    all_goals try subst_vars
    all_goals simp_all [asU64_error_iff, asU32_error_iff, u64add_error_iff, sliceRange_error_iff, copyFromSlice_error_iff, u256FromBytes_error_iff]
  · intro m2 h
    unfold basefee at h
    try simp only [] at h
    try split_ifs at h
    all_goals repeat' split at h
    all_goals try subst_vars
    all_goals simp_all [stackPush, pop_snd_gas_used, pop_snd_code, pop_snd_transaction, popN_snd_gas_used, popN_snd_code, popN_snd_transaction]
    all_goals try subst_vars
    all_goals try simp_all [stackPush, pop_snd_gas_used, pop_snd_code, pop_snd_transaction, popN_snd_gas_used, popN_snd_code, popN_snd_transaction]

theorem gasOkE_sha3 (m : EVM) : GasOkE m (sha3 m) := by
  constructor
  · intro h
    unfold sha3 at h
    try simp only [] at h
    try split_ifs at h
    all_goals repeat' split at h
    all_goals try subst_vars
    all_goals simp_all [asU64_error_iff, asU32_error_iff, u64add_error_iff, sliceRange_error_iff, copyFromSlice_error_iff, u256FromBytes_error_iff]
  · intro m2 h
    unfold sha3 at h
    try simp only [] at h
    try split_ifs at h
    all_goals repeat' split at h
    all_goals try subst_vars
    all_goals simp_all [stackPush, pop_snd_gas_used, pop_snd_code, pop_snd_transaction, popN_snd_gas_used, popN_snd_code, popN_snd_transaction]
    all_goals try subst_vars
    all_goals try simp_all [stackPush, pop_snd_gas_used, pop_snd_code, pop_snd_transaction, popN_snd_gas_used, popN_snd_code, popN_snd_transaction]

theorem gasOkE_extcodecopy (m : EVM) : GasOkE m (extcodecopy m) := by
  constructor
  · intro h
    unfold extcodecopy at h
    try simp only [] at h
    try split_ifs at h
    all_goals repeat' split at h
    all_goals try subst_vars
    all_goals simp_all [asU64_error_iff, asU32_error_iff, u64add_error_iff, sliceRange_error_iff, copyFromSlice_error_iff, u256FromBytes_error_iff]
  · intro m2 h
    unfold extcodecopy at h
    try simp only [] at h
    try split_ifs at h
    all_goals repeat' split at h
    all_goals try subst_vars
    all_goals simp_all [stackPush, pop_snd_gas_used, pop_snd_code, pop_snd_transaction, popN_snd_gas_used, popN_snd_code, popN_snd_transaction]
    all_goals try subst_vars
    all_goals try simp_all [stackPush, pop_snd_gas_used, pop_snd_code, pop_snd_transaction, popN_snd_gas_used, popN_snd_code, popN_snd_transaction]

theorem gasOkE_address (m : EVM) : GasOkE m (address m) := by
  constructor
  · intro h
    unfold address at h
    try simp only [] at h
    try split_ifs at h
    all_goals repeat' split at h
    all_goals try subst_vars
    all_goals simp_all [asU64_error_iff, asU32_error_iff, u64add_error_iff, sliceRange_error_iff, copyFromSlice_error_iff, u256FromBytes_error_iff]
  · intro m2 h
    unfold address at h
    try simp only [] at h
    try split_ifs at h
    all_goals repeat' split at h
    all_goals try subst_vars
    all_goals simp_all [stackPush, pop_snd_gas_used, pop_snd_code, pop_snd_transaction, popN_snd_gas_used, popN_snd_code, popN_snd_transaction]
    all_goals try subst_vars
    all_goals try simp_all [stackPush, pop_snd_gas_used, pop_snd_code, pop_snd_transaction, popN_snd_gas_used, popN_snd_code, popN_snd_transaction]

theorem gasOkE_origin (m : EVM) : GasOkE m (origin m) := by
  constructor
  · intro h
    unfold origin at h
    try simp only [] at h
    try split_ifs at h
    all_goals repeat' split at h
    all_goals try subst_vars
    all_goals simp_all [asU64_error_iff, asU32_error_iff, u64add_error_iff, sliceRange_error_iff, copyFromSlice_error_iff, u256FromBytes_error_iff]
  · intro m2 h
    unfold origin at h
    try simp only [] at h
    try split_ifs at h
    all_goals repeat' split at h
    all_goals try subst_vars
    all_goals simp_all [stackPush, pop_snd_gas_used, pop_snd_code, pop_snd_transaction, popN_snd_gas_used, popN_snd_code, popN_snd_transaction]
    all_goals try subst_vars
    all_goals try simp_all [stackPush, pop_snd_gas_used, pop_snd_code, pop_snd_transaction, popN_snd_gas_used, popN_snd_code, popN_snd_transaction]

theorem gasOkE_caller (m : EVM) : GasOkE m (caller m) := by
  constructor
  · intro h
    unfold caller at h
    try simp only [] at h
    try split_ifs at h
    all_goals repeat' split at h
    all_goals try subst_vars
    all_goals simp_all [asU64_error_iff, asU32_error_iff, u64add_error_iff, sliceRange_error_iff, copyFromSlice_error_iff, u256FromBytes_error_iff]
  · intro m2 h
    unfold caller at h
    try simp only [] at h
    try split_ifs at h
    all_goals repeat' split at h
    all_goals try subst_vars
    all_goals simp_all [stackPush, pop_snd_gas_used, pop_snd_code, pop_snd_transaction, popN_snd_gas_used, popN_snd_code, popN_snd_transaction]
    all_goals try subst_vars
    all_goals try simp_all [stackPush, pop_snd_gas_used, pop_snd_code, pop_snd_transaction, popN_snd_gas_used, popN_snd_code, popN_snd_transaction]

theorem gasOkE_callvalue (m : EVM) : GasOkE m (callvalue m) := by
  constructor
  · intro h
    unfold callvalue at h
    try simp only [] at h
    try split_ifs at h
    all_goals repeat' split at h
    all_goals try subst_vars
    all_goals simp_all [asU64_error_iff, asU32_error_iff, u64add_error_iff, sliceRange_error_iff, copyFromSlice_error_iff, u256FromBytes_error_iff]
  · intro m2 h
    unfold callvalue at h
    try simp only [] at h
    try split_ifs at h
    all_goals repeat' split at h
    all_goals try subst_vars
    all_goals simp_all [stackPush, pop_snd_gas_used, pop_snd_code, pop_snd_transaction, popN_snd_gas_used, popN_snd_code, popN_snd_transaction]
    all_goals try subst_vars
    all_goals try simp_all [stackPush, pop_snd_gas_used, pop_snd_code, pop_snd_transaction, popN_snd_gas_used, popN_snd_code, popN_snd_transaction]

theorem gasOkE_return_op (m : EVM) : GasOkE m (return_op m) := by
  constructor
  · intro h
    unfold return_op at h
    try simp only [] at h
    try split_ifs at h
    all_goals repeat' split at h
    all_goals try subst_vars
    all_goals simp_all [asU64_error_iff, asU32_error_iff, u64add_error_iff, sliceRange_error_iff, copyFromSlice_error_iff, u256FromBytes_error_iff]
  · intro m2 h
    unfold return_op at h
    try simp only [] at h
    try split_ifs at h
    all_goals repeat' split at h
    all_goals try subst_vars
    all_goals simp_all [stackPush, pop_snd_gas_used, pop_snd_code, pop_snd_transaction, popN_snd_gas_used, popN_snd_code, popN_snd_transaction]
    all_goals try subst_vars
    all_goals try simp_all [stackPush, pop_snd_gas_used, pop_snd_code, pop_snd_transaction, popN_snd_gas_used, popN_snd_code, popN_snd_transaction]

theorem gasOkE_return_data_size (m : EVM) : GasOkE m (return_data_size m) := by
  constructor
  · intro h
    unfold return_data_size at h
    try simp only [] at h
    try split_ifs at h
    all_goals repeat' split at h
    all_goals try subst_vars
    all_goals simp_all [asU64_error_iff, asU32_error_iff, u64add_error_iff, sliceRange_error_iff, copyFromSlice_error_iff, u256FromBytes_error_iff]
  · intro m2 h
    unfold return_data_size at h
    try simp only [] at h
    try split_ifs at h
    all_goals repeat' split at h
    all_goals try subst_vars
    all_goals simp_all [stackPush, pop_snd_gas_used, pop_snd_code, pop_snd_transaction, popN_snd_gas_used, popN_snd_code, popN_snd_transaction]
    all_goals try subst_vars
    all_goals try simp_all [stackPush, pop_snd_gas_used, pop_snd_code, pop_snd_transaction, popN_snd_gas_used, popN_snd_code, popN_snd_transaction]

theorem gasOkE_return_data_copy (m : EVM) : GasOkE m (return_data_copy m) := by
  constructor
  · intro h
    unfold return_data_copy at h
    try simp only [] at h
    try split_ifs at h
    all_goals repeat' split at h
    all_goals try subst_vars
    all_goals simp_all [asU64_error_iff, asU32_error_iff, u64add_error_iff, sliceRange_error_iff, copyFromSlice_error_iff, u256FromBytes_error_iff]
  · intro m2 h
    unfold return_data_copy at h
    try simp only [] at h
    try split_ifs at h
    all_goals repeat' split at h
    all_goals try subst_vars
    all_goals simp_all [stackPush, pop_snd_gas_used, pop_snd_code, pop_snd_transaction, popN_snd_gas_used, popN_snd_code, popN_snd_transaction]
    all_goals try subst_vars
    all_goals try simp_all [stackPush, pop_snd_gas_used, pop_snd_code, pop_snd_transaction, popN_snd_gas_used, popN_snd_code, popN_snd_transaction]

theorem gasOkE_revert (m : EVM) : GasOkE m (revert m) := by
  constructor
  · intro h
    unfold revert at h
    try simp only [] at h
    try split_ifs at h
    all_goals repeat' split at h
    all_goals try subst_vars
    all_goals simp_all [asU64_error_iff, asU32_error_iff, u64add_error_iff, sliceRange_error_iff, copyFromSlice_error_iff, u256FromBytes_error_iff]
  · intro m2 h
    unfold revert at h
    try simp only [] at h
    try split_ifs at h
    all_goals repeat' split at h
    all_goals try subst_vars
    all_goals simp_all [stackPush, pop_snd_gas_used, pop_snd_code, pop_snd_transaction, popN_snd_gas_used, popN_snd_code, popN_snd_transaction]
    all_goals try subst_vars
    all_goals try simp_all [stackPush, pop_snd_gas_used, pop_snd_code, pop_snd_transaction, popN_snd_gas_used, popN_snd_code, popN_snd_transaction]

theorem gasOkE_invalid (m : EVM) : GasOkE m (invalid m) := by
  constructor
  · intro h
    unfold invalid at h
    try simp only [] at h
    try split_ifs at h
    all_goals repeat' split at h
    all_goals try subst_vars
    all_goals simp_all [asU64_error_iff, asU32_error_iff, u64add_error_iff, sliceRange_error_iff, copyFromSlice_error_iff, u256FromBytes_error_iff]
  · intro m2 h
    unfold invalid at h
    try simp only [] at h
    try split_ifs at h
    all_goals repeat' split at h
    all_goals try subst_vars
    all_goals simp_all [stackPush, pop_snd_gas_used, pop_snd_code, pop_snd_transaction, popN_snd_gas_used, popN_snd_code, popN_snd_transaction]
    all_goals try subst_vars
    all_goals try simp_all [stackPush, pop_snd_gas_used, pop_snd_code, pop_snd_transaction, popN_snd_gas_used, popN_snd_code, popN_snd_transaction]

theorem gasOkE_selfdestruct (m : EVM) : GasOkE m (selfdestruct m) := by
  constructor
  · intro h
    unfold selfdestruct at h
    try simp only [] at h
    try split_ifs at h
    all_goals repeat' split at h
    all_goals try subst_vars
    all_goals simp_all [asU64_error_iff, asU32_error_iff, u64add_error_iff, sliceRange_error_iff, copyFromSlice_error_iff, u256FromBytes_error_iff]
  · intro m2 h
    unfold selfdestruct at h
    try simp only [] at h
    try split_ifs at h
    all_goals repeat' split at h
    all_goals try subst_vars
    all_goals simp_all [stackPush, pop_snd_gas_used, pop_snd_code, pop_snd_transaction, popN_snd_gas_used, popN_snd_code, popN_snd_transaction]
    all_goals try subst_vars
    all_goals try simp_all [stackPush, pop_snd_gas_used, pop_snd_code, pop_snd_transaction, popN_snd_gas_used, popN_snd_code, popN_snd_transaction]

theorem gasOkE_gasOp (m : EVM) : GasOkE m (gasOp m) := by
  constructor
  · intro h
    unfold gasOp at h
    try simp only [] at h
    try split_ifs at h
    all_goals repeat' split at h
    all_goals try subst_vars
    all_goals simp_all [asU64_error_iff, asU32_error_iff, u64add_error_iff, sliceRange_error_iff, copyFromSlice_error_iff, u256FromBytes_error_iff]
  · intro m2 h
    unfold gasOp at h
    try simp only [] at h
    try split_ifs at h
    all_goals repeat' split at h
    all_goals try subst_vars
    all_goals simp_all [stackPush, pop_snd_gas_used, pop_snd_code, pop_snd_transaction, popN_snd_gas_used, popN_snd_code, popN_snd_transaction]
    all_goals try subst_vars
    all_goals try simp_all [stackPush, pop_snd_gas_used, pop_snd_code, pop_snd_transaction, popN_snd_gas_used, popN_snd_code, popN_snd_transaction]

theorem gasOkE_add (m : EVM) : GasOkE m (add m) := by
  constructor
  · intro h
    unfold add binop at h
    try simp only [] at h
    try split_ifs at h
    all_goals repeat' split at h
    all_goals try subst_vars
    all_goals simp_all [asU64_error_iff, asU32_error_iff, u64add_error_iff, sliceRange_error_iff, copyFromSlice_error_iff, u256FromBytes_error_iff]
  · intro m2 h
    unfold add binop at h
    try simp only [] at h
    try split_ifs at h
    all_goals repeat' split at h
    all_goals try subst_vars
    all_goals simp_all [stackPush, pop_snd_gas_used, pop_snd_code, pop_snd_transaction, popN_snd_gas_used, popN_snd_code, popN_snd_transaction]
    all_goals try subst_vars
    all_goals try simp_all [stackPush, pop_snd_gas_used, pop_snd_code, pop_snd_transaction, popN_snd_gas_used, popN_snd_code, popN_snd_transaction]

theorem gasOkE_mul (m : EVM) : GasOkE m (mul m) := by
  constructor
  · intro h
    unfold mul binop at h
    try simp only [] at h
    try split_ifs at h
    all_goals repeat' split at h
    all_goals try subst_vars
    all_goals simp_all [asU64_error_iff, asU32_error_iff, u64add_error_iff, sliceRange_error_iff, copyFromSlice_error_iff, u256FromBytes_error_iff]
  · intro m2 h
    unfold mul binop at h
    try simp only [] at h
    try split_ifs at h
    all_goals repeat' split at h
    all_goals try subst_vars
    all_goals simp_all [stackPush, pop_snd_gas_used, pop_snd_code, pop_snd_transaction, popN_snd_gas_used, popN_snd_code, popN_snd_transaction]
    all_goals try subst_vars
    all_goals try simp_all [stackPush, pop_snd_gas_used, pop_snd_code, pop_snd_transaction, popN_snd_gas_used, popN_snd_code, popN_snd_transaction]

theorem gasOkE_sub (m : EVM) : GasOkE m (sub m) := by
  constructor
  · intro h
    unfold sub binop at h
    try simp only [] at h
    try split_ifs at h
    all_goals repeat' split at h
    all_goals try subst_vars
    all_goals simp_all [asU64_error_iff, asU32_error_iff, u64add_error_iff, sliceRange_error_iff, copyFromSlice_error_iff, u256FromBytes_error_iff]
  · intro m2 h
    unfold sub binop at h
    try simp only [] at h
    try split_ifs at h
    all_goals repeat' split at h
    all_goals try subst_vars
    all_goals simp_all [stackPush, pop_snd_gas_used, pop_snd_code, pop_snd_transaction, popN_snd_gas_used, popN_snd_code, popN_snd_transaction]
    all_goals try subst_vars
    all_goals try simp_all [stackPush, pop_snd_gas_used, pop_snd_code, pop_snd_transaction, popN_snd_gas_used, popN_snd_code, popN_snd_transaction]

theorem gasOkE_div (m : EVM) : GasOkE m (div m) := by
  constructor
  · intro h
    unfold div binop at h
    try simp only [] at h
    try split_ifs at h
    all_goals repeat' split at h
    all_goals try subst_vars
    all_goals simp_all [asU64_error_iff, asU32_error_iff, u64add_error_iff, sliceRange_error_iff, copyFromSlice_error_iff, u256FromBytes_error_iff]
  · intro m2 h
    unfold div binop at h
    try simp only [] at h
    try split_ifs at h
    all_goals repeat' split at h
    all_goals try subst_vars
    all_goals simp_all [stackPush, pop_snd_gas_used, pop_snd_code, pop_snd_transaction, popN_snd_gas_used, popN_snd_code, popN_snd_transaction]
    all_goals try subst_vars
    all_goals try simp_all [stackPush, pop_snd_gas_used, pop_snd_code, pop_snd_transaction, popN_snd_gas_used, popN_snd_code, popN_snd_transaction]

theorem gasOkE_sdiv (m : EVM) : GasOkE m (sdiv m) := by
  constructor
  · intro h
    unfold sdiv binop at h
    try simp only [] at h
    try split_ifs at h
    all_goals repeat' split at h
    all_goals try subst_vars
    all_goals simp_all [asU64_error_iff, asU32_error_iff, u64add_error_iff, sliceRange_error_iff, copyFromSlice_error_iff, u256FromBytes_error_iff]
  · intro m2 h
    unfold sdiv binop at h
    try simp only [] at h
    try split_ifs at h
    all_goals repeat' split at h
    all_goals try subst_vars
    all_goals simp_all [stackPush, pop_snd_gas_used, pop_snd_code, pop_snd_transaction, popN_snd_gas_used, popN_snd_code, popN_snd_transaction]
    all_goals try subst_vars
    all_goals try simp_all [stackPush, pop_snd_gas_used, pop_snd_code, pop_snd_transaction, popN_snd_gas_used, popN_snd_code, popN_snd_transaction]

theorem gasOkE_modOp (m : EVM) : GasOkE m (modOp m) := by
  constructor
  · intro h
    unfold modOp binop at h
    try simp only [] at h
    try split_ifs at h
    all_goals repeat' split at h
    all_goals try subst_vars
    all_goals simp_all [asU64_error_iff, asU32_error_iff, u64add_error_iff, sliceRange_error_iff, copyFromSlice_error_iff, u256FromBytes_error_iff]
  · intro m2 h
    unfold modOp binop at h
    try simp only [] at h
    try split_ifs at h
    all_goals repeat' split at h
    all_goals try subst_vars
    all_goals simp_all [stackPush, pop_snd_gas_used, pop_snd_code, pop_snd_transaction, popN_snd_gas_used, popN_snd_code, popN_snd_transaction]
    all_goals try subst_vars
    all_goals try simp_all [stackPush, pop_snd_gas_used, pop_snd_code, pop_snd_transaction, popN_snd_gas_used, popN_snd_code, popN_snd_transaction]

theorem gasOkE_expOp (m : EVM) : GasOkE m (expOp m) := by
  constructor
  · intro h
    unfold expOp binop at h
    try simp only [] at h
    try split_ifs at h
    all_goals repeat' split at h
    all_goals try subst_vars
    all_goals simp_all [asU64_error_iff, asU32_error_iff, u64add_error_iff, sliceRange_error_iff, copyFromSlice_error_iff, u256FromBytes_error_iff]
  · intro m2 h
    unfold expOp binop at h
    try simp only [] at h
    try split_ifs at h
    all_goals repeat' split at h
    all_goals try subst_vars
    all_goals simp_all [stackPush, pop_snd_gas_used, pop_snd_code, pop_snd_transaction, popN_snd_gas_used, popN_snd_code, popN_snd_transaction]
    all_goals try subst_vars
    all_goals try simp_all [stackPush, pop_snd_gas_used, pop_snd_code, pop_snd_transaction, popN_snd_gas_used, popN_snd_code, popN_snd_transaction]

theorem gasOkE_lt (m : EVM) : GasOkE m (lt m) := by
  constructor
  · intro h
    unfold lt binop at h
    try simp only [] at h
    try split_ifs at h
    all_goals repeat' split at h
    all_goals try subst_vars
    all_goals simp_all [asU64_error_iff, asU32_error_iff, u64add_error_iff, sliceRange_error_iff, copyFromSlice_error_iff, u256FromBytes_error_iff]
  · intro m2 h
    unfold lt binop at h
    try simp only [] at h
    try split_ifs at h
    all_goals repeat' split at h
    all_goals try subst_vars
    all_goals simp_all [stackPush, pop_snd_gas_used, pop_snd_code, pop_snd_transaction, popN_snd_gas_used, popN_snd_code, popN_snd_transaction]
    all_goals try subst_vars
    all_goals try simp_all [stackPush, pop_snd_gas_used, pop_snd_code, pop_snd_transaction, popN_snd_gas_used, popN_snd_code, popN_snd_transaction]

theorem gasOkE_gt (m : EVM) : GasOkE m (gt m) := by
  constructor
  · intro h
    unfold gt binop at h
    try simp only [] at h
    try split_ifs at h
    all_goals repeat' split at h
    all_goals try subst_vars
    all_goals simp_all [asU64_error_iff, asU32_error_iff, u64add_error_iff, sliceRange_error_iff, copyFromSlice_error_iff, u256FromBytes_error_iff]
  · intro m2 h
    unfold gt binop at h
    try simp only [] at h
    try split_ifs at h
    all_goals repeat' split at h
    all_goals try subst_vars
    all_goals simp_all [stackPush, pop_snd_gas_used, pop_snd_code, pop_snd_transaction, popN_snd_gas_used, popN_snd_code, popN_snd_transaction]
    all_goals try subst_vars
    all_goals try simp_all [stackPush, pop_snd_gas_used, pop_snd_code, pop_snd_transaction, popN_snd_gas_used, popN_snd_code, popN_snd_transaction]

theorem gasOkE_eqOp (m : EVM) : GasOkE m (eqOp m) := by
  constructor
  · intro h
    unfold eqOp binop at h
    try simp only [] at h
    try split_ifs at h
    all_goals repeat' split at h
    all_goals try subst_vars
    all_goals simp_all [asU64_error_iff, asU32_error_iff, u64add_error_iff, sliceRange_error_iff, copyFromSlice_error_iff, u256FromBytes_error_iff]
  · intro m2 h
    unfold eqOp binop at h
    try simp only [] at h
    try split_ifs at h
    all_goals repeat' split at h
    all_goals try subst_vars
    all_goals simp_all [stackPush, pop_snd_gas_used, pop_snd_code, pop_snd_transaction, popN_snd_gas_used, popN_snd_code, popN_snd_transaction]
    all_goals try subst_vars
    all_goals try simp_all [stackPush, pop_snd_gas_used, pop_snd_code, pop_snd_transaction, popN_snd_gas_used, popN_snd_code, popN_snd_transaction]

theorem gasOkE_and_op (m : EVM) : GasOkE m (and_op m) := by
  constructor
  · intro h
    unfold and_op binop at h
    try simp only [] at h
    try split_ifs at h
    all_goals repeat' split at h
    all_goals try subst_vars
    all_goals simp_all [asU64_error_iff, asU32_error_iff, u64add_error_iff, sliceRange_error_iff, copyFromSlice_error_iff, u256FromBytes_error_iff]
  · intro m2 h
    unfold and_op binop at h
    try simp only [] at h
    try split_ifs at h
    all_goals repeat' split at h
    all_goals try subst_vars
    all_goals simp_all [stackPush, pop_snd_gas_used, pop_snd_code, pop_snd_transaction, popN_snd_gas_used, popN_snd_code, popN_snd_transaction]
    all_goals try subst_vars
    all_goals try simp_all [stackPush, pop_snd_gas_used, pop_snd_code, pop_snd_transaction, popN_snd_gas_used, popN_snd_code, popN_snd_transaction]

theorem gasOkE_orOp (m : EVM) : GasOkE m (orOp m) := by
  constructor
  · intro h
    unfold orOp binop at h
    try simp only [] at h
    try split_ifs at h
    all_goals repeat' split at h
    all_goals try subst_vars
    all_goals simp_all [asU64_error_iff, asU32_error_iff, u64add_error_iff, sliceRange_error_iff, copyFromSlice_error_iff, u256FromBytes_error_iff]
  · intro m2 h
    unfold orOp binop at h
    try simp only [] at h
    try split_ifs at h
    all_goals repeat' split at h
    all_goals try subst_vars
    all_goals simp_all [stackPush, pop_snd_gas_used, pop_snd_code, pop_snd_transaction, popN_snd_gas_used, popN_snd_code, popN_snd_transaction]
    all_goals try subst_vars
    all_goals try simp_all [stackPush, pop_snd_gas_used, pop_snd_code, pop_snd_transaction, popN_snd_gas_used, popN_snd_code, popN_snd_transaction]

theorem gasOkE_xorOp (m : EVM) : GasOkE m (xorOp m) := by
  constructor
  · intro h
    unfold xorOp binop at h
    try simp only [] at h
    try split_ifs at h
    all_goals repeat' split at h
    all_goals try subst_vars
    all_goals simp_all [asU64_error_iff, asU32_error_iff, u64add_error_iff, sliceRange_error_iff, copyFromSlice_error_iff, u256FromBytes_error_iff]
  · intro m2 h
    unfold xorOp binop at h
    try simp only [] at h
    try split_ifs at h
    all_goals repeat' split at h
    all_goals try subst_vars
    all_goals simp_all [stackPush, pop_snd_gas_used, pop_snd_code, pop_snd_transaction, popN_snd_gas_used, popN_snd_code, popN_snd_transaction]
    all_goals try subst_vars
    all_goals try simp_all [stackPush, pop_snd_gas_used, pop_snd_code, pop_snd_transaction, popN_snd_gas_used, popN_snd_code, popN_snd_transaction]

theorem gasOkE_shl (m : EVM) : GasOkE m (shl m) := by
  constructor
  · intro h
    unfold shl binop at h
    try simp only [] at h
    try split_ifs at h
    all_goals repeat' split at h
    all_goals try subst_vars
    all_goals simp_all [asU64_error_iff, asU32_error_iff, u64add_error_iff, sliceRange_error_iff, copyFromSlice_error_iff, u256FromBytes_error_iff]
  · intro m2 h
    unfold shl binop at h
    try simp only [] at h
    try split_ifs at h
    all_goals repeat' split at h
    all_goals try subst_vars
    all_goals simp_all [stackPush, pop_snd_gas_used, pop_snd_code, pop_snd_transaction, popN_snd_gas_used, popN_snd_code, popN_snd_transaction]
    all_goals try subst_vars
    all_goals try simp_all [stackPush, pop_snd_gas_used, pop_snd_code, pop_snd_transaction, popN_snd_gas_used, popN_snd_code, popN_snd_transaction]

theorem gasOkE_shr (m : EVM) : GasOkE m (shr m) := by
  constructor
  · intro h
    unfold shr binop at h
    try simp only [] at h
    try split_ifs at h
    all_goals repeat' split at h
    all_goals try subst_vars
    all_goals simp_all [asU64_error_iff, asU32_error_iff, u64add_error_iff, sliceRange_error_iff, copyFromSlice_error_iff, u256FromBytes_error_iff]
  · intro m2 h
    unfold shr binop at h
    try simp only [] at h
    try split_ifs at h
    all_goals repeat' split at h
    all_goals try subst_vars
    all_goals simp_all [stackPush, pop_snd_gas_used, pop_snd_code, pop_snd_transaction, popN_snd_gas_used, popN_snd_code, popN_snd_transaction]
    all_goals try subst_vars
    all_goals try simp_all [stackPush, pop_snd_gas_used, pop_snd_code, pop_snd_transaction, popN_snd_gas_used, popN_snd_code, popN_snd_transaction]

theorem gasOkE_byte (m : EVM) : GasOkE m (byte m) := by
  constructor
  · intro h
    unfold byte binop at h
    try simp only [] at h
    try split_ifs at h
    all_goals repeat' split at h
    all_goals try subst_vars
    all_goals simp_all [asU64_error_iff, asU32_error_iff, u64add_error_iff, sliceRange_error_iff, copyFromSlice_error_iff, u256FromBytes_error_iff]
  · intro m2 h
    unfold byte binop at h
    try simp only [] at h
    try split_ifs at h
    all_goals repeat' split at h
    all_goals try subst_vars
    all_goals simp_all [stackPush, pop_snd_gas_used, pop_snd_code, pop_snd_transaction, popN_snd_gas_used, popN_snd_code, popN_snd_transaction]
    all_goals try subst_vars
    all_goals try simp_all [stackPush, pop_snd_gas_used, pop_snd_code, pop_snd_transaction, popN_snd_gas_used, popN_snd_code, popN_snd_transaction]

theorem gasOkE_iszero (m : EVM) : GasOkE m (iszero m) := by
  constructor
  · intro h
    unfold iszero unop at h
    try simp only [] at h
    try split_ifs at h
    all_goals repeat' split at h
    all_goals try subst_vars
    all_goals simp_all [asU64_error_iff, asU32_error_iff, u64add_error_iff, sliceRange_error_iff, copyFromSlice_error_iff, u256FromBytes_error_iff]
  · intro m2 h
    unfold iszero unop at h
    try simp only [] at h
    try split_ifs at h
    all_goals repeat' split at h
    all_goals try subst_vars
    all_goals simp_all [stackPush, pop_snd_gas_used, pop_snd_code, pop_snd_transaction, popN_snd_gas_used, popN_snd_code, popN_snd_transaction]
    all_goals try subst_vars
    all_goals try simp_all [stackPush, pop_snd_gas_used, pop_snd_code, pop_snd_transaction, popN_snd_gas_used, popN_snd_code, popN_snd_transaction]

theorem gasOkE_notOp (m : EVM) : GasOkE m (notOp m) := by
  constructor
  · intro h
    unfold notOp unop at h
    try simp only [] at h
    try split_ifs at h
    all_goals repeat' split at h
    all_goals try subst_vars
    all_goals simp_all [asU64_error_iff, asU32_error_iff, u64add_error_iff, sliceRange_error_iff, copyFromSlice_error_iff, u256FromBytes_error_iff]
  · intro m2 h
    unfold notOp unop at h
    try simp only [] at h
    try split_ifs at h
    all_goals repeat' split at h
    all_goals try subst_vars
    all_goals simp_all [stackPush, pop_snd_gas_used, pop_snd_code, pop_snd_transaction, popN_snd_gas_used, popN_snd_code, popN_snd_transaction]
    all_goals try subst_vars
    all_goals try simp_all [stackPush, pop_snd_gas_used, pop_snd_code, pop_snd_transaction, popN_snd_gas_used, popN_snd_code, popN_snd_transaction]

theorem gasOkE_dup (p : Nat) (m : EVM) : GasOkE m (dup p m) := by
  constructor
  · intro h
    unfold dup at h
    try simp only [] at h
    try split_ifs at h
    all_goals repeat' split at h
    all_goals try subst_vars
    all_goals simp_all [asU64_error_iff, asU32_error_iff, u64add_error_iff, sliceRange_error_iff, copyFromSlice_error_iff, u256FromBytes_error_iff]
  · intro m2 h
    unfold dup at h
    try simp only [] at h
    try split_ifs at h
    all_goals repeat' split at h
    all_goals try subst_vars
    all_goals simp_all [stackPush, pop_snd_gas_used, pop_snd_code, pop_snd_transaction, popN_snd_gas_used, popN_snd_code, popN_snd_transaction]
    all_goals try subst_vars
    all_goals try simp_all [stackPush, pop_snd_gas_used, pop_snd_code, pop_snd_transaction, popN_snd_gas_used, popN_snd_code, popN_snd_transaction]

theorem gasOkE_swap (p : Nat) (m : EVM) : GasOkE m (swap p m) := by
  constructor
  · intro h
    unfold swap at h
    try simp only [] at h
    try split_ifs at h
    all_goals repeat' split at h
    all_goals try subst_vars
    all_goals simp_all [asU64_error_iff, asU32_error_iff, u64add_error_iff, sliceRange_error_iff, copyFromSlice_error_iff, u256FromBytes_error_iff]
  · intro m2 h
    unfold swap at h
    try simp only [] at h
    try split_ifs at h
    all_goals repeat' split at h
    all_goals try subst_vars
    all_goals simp_all [stackPush, pop_snd_gas_used, pop_snd_code, pop_snd_transaction, popN_snd_gas_used, popN_snd_code, popN_snd_transaction]
    all_goals try subst_vars
    all_goals try simp_all [stackPush, pop_snd_gas_used, pop_snd_code, pop_snd_transaction, popN_snd_gas_used, popN_snd_code, popN_snd_transaction]

theorem gasOkE_logOp (n : Nat) (m : EVM) : GasOkE m (logOp n m) := by
  constructor
  · intro h
    unfold logOp at h
    try simp only [] at h
    try split_ifs at h
    all_goals repeat' split at h
    all_goals try subst_vars
    all_goals simp_all [asU64_error_iff, asU32_error_iff, u64add_error_iff, sliceRange_error_iff, copyFromSlice_error_iff, u256FromBytes_error_iff]
  · intro m2 h
    unfold logOp at h
    try simp only [] at h
    try split_ifs at h
    all_goals repeat' split at h
    all_goals try subst_vars
    all_goals simp_all [stackPush, pop_snd_gas_used, pop_snd_code, pop_snd_transaction, popN_snd_gas_used, popN_snd_code, popN_snd_transaction]
    all_goals try subst_vars
    all_goals try simp_all [stackPush, pop_snd_gas_used, pop_snd_code, pop_snd_transaction, popN_snd_gas_used, popN_snd_code, popN_snd_transaction]

theorem gasOkE_accountQuery (f : Account → Nat) (m : EVM) : GasOkE m (accountQuery f m) := by
  constructor
  · intro h
    unfold accountQuery at h
    try simp only [] at h
    try split_ifs at h
    all_goals repeat' split at h
    all_goals try subst_vars
    all_goals simp_all [asU64_error_iff, asU32_error_iff, u64add_error_iff, sliceRange_error_iff, copyFromSlice_error_iff, u256FromBytes_error_iff]
  · intro m2 h
    unfold accountQuery at h
    try simp only [] at h
    try split_ifs at h
    all_goals repeat' split at h
    all_goals try subst_vars
    all_goals simp_all [stackPush, pop_snd_gas_used, pop_snd_code, pop_snd_transaction, popN_snd_gas_used, popN_snd_code, popN_snd_transaction]
    all_goals try subst_vars
    all_goals try simp_all [stackPush, pop_snd_gas_used, pop_snd_code, pop_snd_transaction, popN_snd_gas_used, popN_snd_code, popN_snd_transaction]


theorem gasOkE_ok_fields {m m2 : EVM} (h1 : m2.gas_used = m.gas_used)
    (h2 : m2.code = m.code) (h3 : m2.transaction = m.transaction) :
    GasOkE m (.ok m2) := by
  constructor
  · intro h; exact absurd h (by simp)
  · intro m3 h
    injection h with h4
    subst h4
    exact ⟨h1, h2, h3⟩

/-- Combined per-dispatch facts: the halt flag is true exactly for STOP,
and (for opcodes other than PUSH1..PUSH32, CALL and STATICCALL) the
dispatch neither raises OutOfGas nor changes gas_used, the code, or the
transaction. -/
def StepOk (op : Nat) (m : EVM) (r : Except EvmErr (EVM × Bool)) : Prop :=
  (∀ p : EVM × Bool, r = .ok p → (p.2 = true ↔ op = STOP))
  ∧ (¬ (PUSH1 ≤ op ∧ op ≤ PUSH32) → op ≠ CALL → op ≠ STATICCALL →
      r ≠ .error .OutOfGas ∧
      (∀ p : EVM × Bool, r = .ok p → p.1.gas_used = m.gas_used ∧
        p.1.code = m.code ∧ p.1.transaction = m.transaction))

theorem stepOk_cont_ne {op : Nat} {m : EVM} {r : Except EvmErr EVM}
    (hne : op ≠ STOP) (hg : GasOkE m r) : StepOk op m (cont r) := by
  constructor
  · intro p hc
    unfold cont at hc
    split at hc
    · exact absurd hc (by simp)
    · injection hc with h2
      subst h2
      simp [hne]
  · intro _ _ _
    constructor
    · intro hc
      unfold cont at hc
      split at hc
      · injection hc with h2
        subst h2
        exact hg.1 rfl
      · exact absurd hc (by simp)
    · intro p hc
      unfold cont at hc
      split at hc
      · exact absurd hc (by simp)
      · injection hc with h2
        subst h2
        exact hg.2 _ rfl

theorem stepOk_cont_excluded {op : Nat} {m : EVM} {r : Except EvmErr EVM}
    (hne : op ≠ STOP)
    (hexc : (PUSH1 ≤ op ∧ op ≤ PUSH32) ∨ op = CALL ∨ op = STATICCALL) :
    StepOk op m (cont r) := by
  constructor
  · intro p hc
    unfold cont at hc
    split at hc
    · exact absurd hc (by simp)
    · injection hc with h2
      subst h2
      simp [hne]
  · intro hpush hcall hsc
    rcases hexc with h | h | h
    · exact absurd h hpush
    · exact absurd h hcall
    · exact absurd h hsc

theorem stepOk_stop {op : Nat} {m : EVM} (hop : op = STOP) :
    StepOk op m (.ok (m, true)) := by
  constructor
  · intro p hc
    injection hc with h2
    subst h2
    simp [hop]
  · intro _ _ _
    constructor
    · intro hc; exact absurd hc (by simp)
    · intro p hc
      injection hc with h2
      subst h2
      exact ⟨rfl, rfl, rfl⟩

theorem stepOk_err {op : Nat} {m : EVM} {e : EvmErr} (he : e ≠ .OutOfGas) :
    StepOk op m (.error e) := by
  constructor
  · intro p hc; exact absurd hc (by simp)
  · intro _ _ _
    constructor
    · intro hc
      injection hc with h2
      exact he h2
    · intro p hc; exact absurd hc (by simp)

set_option maxHeartbeats 2000000 in
theorem execOp_stepOk (recur : EVM → Except EvmErr EVM) (op : Nat)
    (m : EVM) : StepOk op m (execOp recur op m) := by
  rw [execOp]
  by_cases hc0 : PUSH1 ≤ op ∧ op ≤ PUSH32
  · rw [if_pos hc0]
    exact stepOk_cont_excluded (by rintro rfl; revert hc0; decide) (Or.inl hc0)
  rw [if_neg hc0]
  by_cases hc1 : op = PUSH0
  · rw [if_pos hc1]
    exact stepOk_cont_ne (by rw [hc1]; decide) (gasOkE_ok_fields rfl rfl rfl)
  rw [if_neg hc1]
  by_cases hc2 : op = POP
  · rw [if_pos hc2]
    exact stepOk_cont_ne (by rw [hc2]; decide) (gasOkE_ok_fields (pop_snd_gas_used m) (pop_snd_code m) (pop_snd_transaction m))
  rw [if_neg hc2]
  by_cases hc3 : op = ADD
  · rw [if_pos hc3]
    exact stepOk_cont_ne (by rw [hc3]; decide) (gasOkE_add m)
  rw [if_neg hc3]
  by_cases hc4 : op = MUL
  · rw [if_pos hc4]
    exact stepOk_cont_ne (by rw [hc4]; decide) (gasOkE_mul m)
  rw [if_neg hc4]
  by_cases hc5 : op = SUB
  · rw [if_pos hc5]
    exact stepOk_cont_ne (by rw [hc5]; decide) (gasOkE_sub m)
  rw [if_neg hc5]
  by_cases hc6 : op = DIV
  · rw [if_pos hc6]
    exact stepOk_cont_ne (by rw [hc6]; decide) (gasOkE_div m)
  rw [if_neg hc6]
  by_cases hc7 : op = SDIV
  · rw [if_pos hc7]
    exact stepOk_cont_ne (by rw [hc7]; decide) (gasOkE_sdiv m)
  rw [if_neg hc7]
  by_cases hc8 : op = MOD
  · rw [if_pos hc8]
    exact stepOk_cont_ne (by rw [hc8]; decide) (gasOkE_modOp m)
  rw [if_neg hc8]
  by_cases hc9 : op = EXP
  · rw [if_pos hc9]
    exact stepOk_cont_ne (by rw [hc9]; decide) (gasOkE_expOp m)
  rw [if_neg hc9]
  by_cases hc10 : op = LT
  · rw [if_pos hc10]
    exact stepOk_cont_ne (by rw [hc10]; decide) (gasOkE_lt m)
  rw [if_neg hc10]
  by_cases hc11 : op = GT
  · rw [if_pos hc11]
    exact stepOk_cont_ne (by rw [hc11]; decide) (gasOkE_gt m)
  rw [if_neg hc11]
  by_cases hc12 : op = EQ
  · rw [if_pos hc12]
    exact stepOk_cont_ne (by rw [hc12]; decide) (gasOkE_eqOp m)
  rw [if_neg hc12]
  by_cases hc13 : op = ISZERO
  · rw [if_pos hc13]
    exact stepOk_cont_ne (by rw [hc13]; decide) (gasOkE_iszero m)
  rw [if_neg hc13]
  by_cases hc14 : op = AND
  · rw [if_pos hc14]
    exact stepOk_cont_ne (by rw [hc14]; decide) (gasOkE_and_op m)
  rw [if_neg hc14]
  by_cases hc15 : op = OR
  · rw [if_pos hc15]
    exact stepOk_cont_ne (by rw [hc15]; decide) (gasOkE_orOp m)
  rw [if_neg hc15]
  by_cases hc16 : op = XOR
  · rw [if_pos hc16]
    exact stepOk_cont_ne (by rw [hc16]; decide) (gasOkE_xorOp m)
  rw [if_neg hc16]
  by_cases hc17 : op = NOT
  · rw [if_pos hc17]
    exact stepOk_cont_ne (by rw [hc17]; decide) (gasOkE_notOp m)
  rw [if_neg hc17]
  by_cases hc18 : op = SHL
  · rw [if_pos hc18]
    exact stepOk_cont_ne (by rw [hc18]; decide) (gasOkE_shl m)
  rw [if_neg hc18]
  by_cases hc19 : op = SHR
  · rw [if_pos hc19]
    exact stepOk_cont_ne (by rw [hc19]; decide) (gasOkE_shr m)
  rw [if_neg hc19]
  by_cases hc20 : op = BYTE
  · rw [if_pos hc20]
    exact stepOk_cont_ne (by rw [hc20]; decide) (gasOkE_byte m)
  rw [if_neg hc20]
  by_cases hc21 : op = MSTORE
  · rw [if_pos hc21]
    exact stepOk_cont_ne (by rw [hc21]; decide) (gasOkE_mstore m)
  rw [if_neg hc21]
  by_cases hc22 : op = MSTORE8
  · rw [if_pos hc22]
    exact stepOk_cont_ne (by rw [hc22]; decide) (gasOkE_mstore8 m)
  rw [if_neg hc22]
  by_cases hc23 : op = MLOAD
  · rw [if_pos hc23]
    exact stepOk_cont_ne (by rw [hc23]; decide) (gasOkE_mload m)
  rw [if_neg hc23]
  by_cases hc24 : op = MSIZE
  · rw [if_pos hc24]
    exact stepOk_cont_ne (by rw [hc24]; decide) (gasOkE_msize m)
  rw [if_neg hc24]
  by_cases hc25 : op = SSTORE
  · rw [if_pos hc25]
    exact stepOk_cont_ne (by rw [hc25]; decide) (gasOkE_sstore m)
  rw [if_neg hc25]
  by_cases hc26 : op = SLOAD
  · rw [if_pos hc26]
    exact stepOk_cont_ne (by rw [hc26]; decide) (gasOkE_sload m)
  rw [if_neg hc26]
  by_cases hc27 : op = STOP
  · rw [if_pos hc27]
    exact stepOk_stop hc27
  rw [if_neg hc27]
  by_cases hc28 : op = JUMP
  · rw [if_pos hc28]
    exact stepOk_cont_ne (by rw [hc28]; decide) (gasOkE_jump m)
  rw [if_neg hc28]
  by_cases hc29 : op = JUMPDEST
  · rw [if_pos hc29]
    exact stepOk_cont_ne (by rw [hc29]; decide) (gasOkE_ok_fields rfl rfl rfl)
  rw [if_neg hc29]
  by_cases hc30 : op = JUMPI
  · rw [if_pos hc30]
    exact stepOk_cont_ne (by rw [hc30]; decide) (gasOkE_jumpi m)
  rw [if_neg hc30]
  by_cases hc31 : op = BLOCKHASH
  · rw [if_pos hc31]
    exact stepOk_cont_ne (by rw [hc31]; decide) (gasOkE_blockhash m)
  rw [if_neg hc31]
  by_cases hc32 : op = COINBASE
  · rw [if_pos hc32]
    exact stepOk_cont_ne (by rw [hc32]; decide) (gasOkE_coinbase m)
  rw [if_neg hc32]
  by_cases hc33 : op = TIMESTAMP
  · rw [if_pos hc33]
    exact stepOk_cont_ne (by rw [hc33]; decide) (gasOkE_timestamp m)
  rw [if_neg hc33]
  by_cases hc34 : op = NUMBER
  · rw [if_pos hc34]
    exact stepOk_cont_ne (by rw [hc34]; decide) (gasOkE_number m)
  rw [if_neg hc34]
  by_cases hc35 : op = PREVRANDAO
  · rw [if_pos hc35]
    exact stepOk_cont_ne (by rw [hc35]; decide) (gasOkE_prevrandao m)
  rw [if_neg hc35]
  by_cases hc36 : op = GASLIMIT
  · rw [if_pos hc36]
    exact stepOk_cont_ne (by rw [hc36]; decide) (gasOkE_gaslimit m)
  rw [if_neg hc36]
  by_cases hc37 : op = CHAINID
  · rw [if_pos hc37]
    exact stepOk_cont_ne (by rw [hc37]; decide) (gasOkE_chainid m)
  rw [if_neg hc37]
  by_cases hc38 : op = SELFBALANCE
  · rw [if_pos hc38]
    exact stepOk_cont_ne (by rw [hc38]; decide) (gasOkE_selfbalance m)
  rw [if_neg hc38]
  by_cases hc39 : op = BASEFEE
  · rw [if_pos hc39]
    exact stepOk_cont_ne (by rw [hc39]; decide) (gasOkE_basefee m)
  rw [if_neg hc39]
  by_cases hc40 : DUP1 ≤ op ∧ op ≤ DUP16
  · rw [if_pos hc40]
    exact stepOk_cont_ne (by rintro rfl; revert hc40; decide) (gasOkE_dup _ m)
  rw [if_neg hc40]
  by_cases hc41 : SWAP1 ≤ op ∧ op ≤ SWAP16
  · rw [if_pos hc41]
    exact stepOk_cont_ne (by rintro rfl; revert hc41; decide) (gasOkE_swap _ m)
  rw [if_neg hc41]
  by_cases hc42 : op = SHA3
  · rw [if_pos hc42]
    exact stepOk_cont_ne (by rw [hc42]; decide) (gasOkE_sha3 m)
  rw [if_neg hc42]
  by_cases hc43 : op = BALANCE
  · rw [if_pos hc43]
    exact stepOk_cont_ne (by rw [hc43]; decide) (gasOkE_accountQuery _ m)
  rw [if_neg hc43]
  by_cases hc44 : op = EXTCODESIZE
  · rw [if_pos hc44]
    exact stepOk_cont_ne (by rw [hc44]; decide) (gasOkE_accountQuery _ m)
  rw [if_neg hc44]
  by_cases hc45 : op = EXTCODECOPY
  · rw [if_pos hc45]
    exact stepOk_cont_ne (by rw [hc45]; decide) (gasOkE_extcodecopy m)
  rw [if_neg hc45]
  by_cases hc46 : op = EXTCODEHASH
  · rw [if_pos hc46]
    exact stepOk_cont_ne (by rw [hc46]; decide) (gasOkE_accountQuery _ m)
  rw [if_neg hc46]
  by_cases hc47 : op = ADDRESS
  · rw [if_pos hc47]
    exact stepOk_cont_ne (by rw [hc47]; decide) (gasOkE_address m)
  rw [if_neg hc47]
  by_cases hc48 : op = ORIGIN
  · rw [if_pos hc48]
    exact stepOk_cont_ne (by rw [hc48]; decide) (gasOkE_origin m)
  rw [if_neg hc48]
  by_cases hc49 : op = CALLER
  · rw [if_pos hc49]
    exact stepOk_cont_ne (by rw [hc49]; decide) (gasOkE_caller m)
  rw [if_neg hc49]
  by_cases hc50 : op = CALLVALUE
  · rw [if_pos hc50]
    exact stepOk_cont_ne (by rw [hc50]; decide) (gasOkE_callvalue m)
  rw [if_neg hc50]
  by_cases hc51 : op = LOG0
  · rw [if_pos hc51]
    exact stepOk_cont_ne (by rw [hc51]; decide) (gasOkE_logOp _ m)
  rw [if_neg hc51]
  by_cases hc52 : op = LOG1
  · rw [if_pos hc52]
    exact stepOk_cont_ne (by rw [hc52]; decide) (gasOkE_logOp _ m)
  rw [if_neg hc52]
  by_cases hc53 : op = LOG3
  · rw [if_pos hc53]
    exact stepOk_cont_ne (by rw [hc53]; decide) (gasOkE_logOp _ m)
  rw [if_neg hc53]
  by_cases hc54 : op = LOG4
  · rw [if_pos hc54]
    exact stepOk_cont_ne (by rw [hc54]; decide) (gasOkE_logOp _ m)
  rw [if_neg hc54]
  by_cases hc55 : op = RETURN
  · rw [if_pos hc55]
    exact stepOk_cont_ne (by rw [hc55]; decide) (gasOkE_return_op m)
  rw [if_neg hc55]
  by_cases hc56 : op = RETURNDATASIZE
  · rw [if_pos hc56]
    exact stepOk_cont_ne (by rw [hc56]; decide) (gasOkE_return_data_size m)
  rw [if_neg hc56]
  by_cases hc57 : op = RETURNDATACOPY
  · rw [if_pos hc57]
    exact stepOk_cont_ne (by rw [hc57]; decide) (gasOkE_return_data_copy m)
  rw [if_neg hc57]
  by_cases hc58 : op = REVERT
  · rw [if_pos hc58]
    exact stepOk_cont_ne (by rw [hc58]; decide) (gasOkE_revert m)
  rw [if_neg hc58]
  by_cases hc59 : op = INVALID
  · rw [if_pos hc59]
    exact stepOk_cont_ne (by rw [hc59]; decide) (gasOkE_invalid m)
  rw [if_neg hc59]
  by_cases hc60 : op = CALL
  · rw [if_pos hc60]
    exact stepOk_cont_excluded (by rw [hc60]; decide) (Or.inr (Or.inl hc60))
  rw [if_neg hc60]
  by_cases hc61 : m.is_static = true ∧ is_state_changing_opcode op = true
  · rw [if_pos hc61]
    exact stepOk_err (by decide)
  rw [if_neg hc61]
  by_cases hc62 : op = STATICCALL
  · rw [if_pos hc62]
    exact stepOk_cont_excluded (by rw [hc62]; decide) (Or.inr (Or.inr hc62))
  rw [if_neg hc62]
  by_cases hc63 : op = SELFDESTRUCT
  · rw [if_pos hc63]
    exact stepOk_cont_ne (by rw [hc63]; decide) (gasOkE_selfdestruct m)
  rw [if_neg hc63]
  by_cases hc64 : op = GAS
  · rw [if_pos hc64]
    exact stepOk_cont_ne (by rw [hc64]; decide) (gasOkE_gasOp m)
  rw [if_neg hc64]
  exact stepOk_err (by decide)


theorem execOp_stop_eq (recur : EVM → Except EvmErr EVM) (m : EVM) :
    execOp recur STOP m = .ok (m, true) := rfl

theorem run_stop_halts (fuel : Nat) (m : EVM) (hpc : m.pc < m.code.length)
    (hop : m.code.getD m.pc 0 = STOP) :
    run (fuel + 1) m = .ok { m with pc := m.pc + 1 } := by
  simp only [run]
  rw [if_pos hpc]
  try simp only []
  rw [hop, execOp_stop_eq]
  rfl

theorem push_gas (size : Nat) (m m2 : EVM) (h : push size m = .ok m2) :
    m2.gas_used = m.gas_used + 3 := by
  unfold push at h
  split at h
  · exact absurd h (by simp)
  · injection h with h2
    subst h2
    show m.gas_used + (lookupKV PUSH1 GASCOST).getD 0 = m.gas_used + 3
    rw [show (lookupKV PUSH1 GASCOST).getD 0 = 3 from rfl]

theorem run_no_outofgas :
    ∀ (fuel : Nat) (m : EVM),
      (∀ b ∈ m.code, ¬ (PUSH1 ≤ b ∧ b ≤ PUSH32) ∧ b ≠ CALL ∧ b ≠ STATICCALL) →
      m.gas_used ≤ m.transaction.gas_limit →
      run fuel m ≠ .error .OutOfGas := by
  intro fuel
  induction fuel with
  | zero =>
    intro m _ _ h
    simp [run] at h
  | succ f ih =>
    intro m hcode hgas h
    simp only [run] at h
    by_cases hpc : m.pc < m.code.length
    · rw [if_pos hpc] at h
      try simp only [] at h
      have hopmem : m.code.getD m.pc 0 ∈ m.code := by
        rw [List.getD_eq_getElem m.code 0 hpc]
        exact List.getElem_mem hpc
      obtain ⟨hp, hc, hs⟩ := hcode _ hopmem
      have hstep := (execOp_stepOk (run f) (m.code.getD m.pc 0)
        { m with pc := m.pc + 1 }).2 hp hc hs
      split at h
      · rename_i e heq
        injection h with h2
        subst h2
        exact hstep.1 heq
      · rename_i m2 halted heq
        obtain ⟨hg1, hg2, hg3⟩ := hstep.2 (m2, halted) heq
        by_cases hb : halted = true
        · rw [if_pos hb] at h
          exact absurd h (by simp)
        · rw [if_neg hb] at h
          have hno : ¬ (m2.transaction.gas_limit < m2.gas_used) := by
            rw [hg3, hg1]
            exact Nat.not_lt.2 hgas
          rw [if_neg hno] at h
          refine ih m2 ?_ ?_ h
          · intro b hbmem
            exact hcode b (by rw [← hg2]; exact hbmem)
          · rw [hg1, hg3]
            exact hgas
    · rw [if_neg hpc] at h
      exact absurd h (by simp)

/-- C4(amended): the claim named STOP, RETURN, REVERT and INVALID as
terminal opcodes. The code's only terminal opcode is STOP: (1) when the
fetched opcode is STOP the dispatch loop returns immediately with only the
pc advanced, and (2) a dispatch returns the break flag true exactly when
the opcode is STOP — RETURN, REVERT and INVALID do not terminate the loop,
so instructions after them continue to execute (see the counterexample). -/
theorem c4_terminal_stop_only :
    (∀ (fuel : Nat) (m : EVM), m.pc < m.code.length →
        m.code.getD m.pc 0 = STOP →
        run (fuel + 1) m = .ok { m with pc := m.pc + 1 })
  ∧ (∀ (recur : EVM → Except EvmErr EVM) (op : Nat) (m : EVM)
        (p : EVM × Bool), execOp recur op m = .ok p →
        (p.2 = true ↔ op = STOP)) :=
  ⟨fun fuel m hpc hop => run_stop_halts fuel m hpc hop,
   fun recur op m p h => (execOp_stepOk recur op m).1 p h⟩

theorem c4_terminal_stop_only_witness :
    run 2 c4StopMachine = .ok { c4StopMachine with pc := c4StopMachine.pc + 1 }
  ∧ (((c4StopMachine, true) : EVM × Bool).2 = true ↔ STOP = STOP) :=
  ⟨c4_terminal_stop_only.1 1 c4StopMachine (by decide) rfl,
   c4_terminal_stop_only.2 (run 1) STOP c4StopMachine (c4StopMachine, true) rfl⟩

/-- C10(amended): gas_used is increased only by the PUSH1..PUSH32 handler
(by the fixed PUSH1 table cost 3); every other opcode's dispatch leaves
gas_used unchanged, so the post-instruction out-of-gas check can fire only
after a PUSH. But a program with no PUSH opcodes can still fail with
OutOfGas through CALL/STATICCALL, whose nested machine's out-of-gas panic
propagates (see the counterexample); the no-OutOfGas guarantee therefore
additionally requires the program to contain no CALL or STATICCALL byte. -/
theorem c10_gas_amended :
    (∀ (size : Nat) (m m2 : EVM), push size m = .ok m2 →
        m2.gas_used = m.gas_used + 3)
  ∧ (∀ (recur : EVM → Except EvmErr EVM) (op : Nat) (m : EVM)
        (p : EVM × Bool), ¬ (PUSH1 ≤ op ∧ op ≤ PUSH32) → op ≠ CALL →
        op ≠ STATICCALL → execOp recur op m = .ok p →
        p.1.gas_used = m.gas_used)
  ∧ (∀ (fuel : Nat) (m : EVM),
        (∀ b ∈ m.code,
          ¬ (PUSH1 ≤ b ∧ b ≤ PUSH32) ∧ b ≠ CALL ∧ b ≠ STATICCALL) →
        m.gas_used ≤ m.transaction.gas_limit →
        run fuel m ≠ .error .OutOfGas) :=
  ⟨push_gas,
   fun recur op m p h1 h2 h3 h4 =>
     (((execOp_stepOk recur op m).2 h1 h2 h3).2 p h4).1,
   run_no_outofgas⟩

theorem c10_gas_amended_witness :
    run 5 c10StopMachine ≠ .error .OutOfGas :=
  c10_gas_amended.2.2 5 c10StopMachine (by decide) (by decide)

/-- C6: for Words a (popped first, top) and b (popped second): SUB pushes
b−a, failing with ArithmeticOverflow exactly when a>b; DIV pushes b/a,
failing with ArithmeticError exactly when a=0; MOD pushes b mod a, failing
exactly when a=0; ADD, MUL and EXP (= b^a) fail with ArithmeticOverflow on
256-bit overflow instead of wrapping. -/
theorem c6_word_arithmetic (m : EVM) (a b : Nat) (rest : List Nat)
    (hStk : m.stack = a :: b :: rest) (_ha : a < wordMod) (_hb : b < wordMod) :
    sub m = (if b < a then .error .ArithmeticOverflow
             else .ok { m with stack := (b - a) :: rest })
  ∧ div m = (if a = 0 then .error .ArithmeticError
             else .ok { m with stack := (b / a) :: rest })
  ∧ modOp m = (if a = 0 then .error .ArithmeticError
             else .ok { m with stack := (b % a) :: rest })
  ∧ add m = (if a + b < wordMod then .ok { m with stack := (a + b) :: rest }
             else .error .ArithmeticOverflow)
  ∧ mul m = (if a * b < wordMod then .ok { m with stack := (a * b) :: rest }
             else .error .ArithmeticOverflow)
  ∧ expOp m = (if b ^ a < wordMod then .ok { m with stack := (b ^ a) :: rest }
             else .error .ArithmeticOverflow) := by
  refine ⟨?_, ?_, ?_, ?_, ?_, ?_⟩ <;>
    first
    | (unfold sub; rw [binop_eq _ m a b rest hStk]
       by_cases h : b < a <;> simp [h])
    | (unfold div; rw [binop_eq _ m a b rest hStk]
       by_cases h : a = 0 <;> simp [h])
    | (unfold modOp; rw [binop_eq _ m a b rest hStk]
       by_cases h : a = 0 <;> simp [h])
    | (unfold add; rw [binop_eq _ m a b rest hStk]
       by_cases h : a + b < wordMod <;> simp [h])
    | (unfold mul; rw [binop_eq _ m a b rest hStk]
       by_cases h : a * b < wordMod <;> simp [h])
    | (unfold expOp; rw [binop_eq _ m a b rest hStk]
       by_cases h : b ^ a < wordMod <;> simp [h])

theorem c6_word_arithmetic_witness :
    sub c6Machine = .ok { c6Machine with stack := [2] }
  ∧ div c6Machine = .ok { c6Machine with stack := [1] }
  ∧ modOp c6Machine = .ok { c6Machine with stack := [2] }
  ∧ add c6Machine = .ok { c6Machine with stack := [8] }
  ∧ mul c6Machine = .ok { c6Machine with stack := [15] }
  ∧ expOp c6Machine = .ok { c6Machine with stack := [125] } := by
  have h := c6_word_arithmetic c6Machine 3 5 [] rfl
    (by norm_num [wordMod]) (by norm_num [wordMod])
  norm_num [wordMod] at h
  exact h

/-- C7(amended): every handler that declares an operand count checks it
before popping and fails with StackUnderflow, the machine state unchanged
beyond the failure (the error carries no mutated state) — this holds for
the binary and unary operators, the memory, storage, jump, logging, call
and selfdestruct handlers listed here, with SHA3 checking only one element
although it pops two; POP however performs no check at all: on an empty
stack it silently pops nothing and succeeds (see the counterexample). -/
theorem c7_underflow_amended (m : EVM) :
    (∀ f, m.stack.length < 2 → binop f m = .error .StackUnderflow)
  ∧ (∀ f, m.stack.length < 1 → unop f m = .error .StackUnderflow)
  ∧ (m.stack.length < 2 → mstore m = .error .StackUnderflow)
  ∧ (m.stack.length < 2 → mstore8 m = .error .StackUnderflow)
  ∧ (m.stack.length < 1 → mload m = .error .StackUnderflow)
  ∧ (m.stack.length < 2 → sstore m = .error .StackUnderflow)
  ∧ (m.stack.length < 1 → sload m = .error .StackUnderflow)
  ∧ (m.stack.length < 1 → jump m = .error .StackUnderflow)
  ∧ (m.stack.length < 2 → jumpi m = .error .StackUnderflow)
  ∧ (m.stack.length < 1 → blockhash m = .error .StackUnderflow)
  ∧ (∀ p, m.stack.length < p → dup p m = .error .StackUnderflow)
  ∧ (∀ p, m.stack.length < p + 1 → swap p m = .error .StackUnderflow)
  ∧ (m.stack.length < 1 → sha3 m = .error .StackUnderflow)
  ∧ (∀ f, m.stack.length < 1 → accountQuery f m = .error .StackUnderflow)
  ∧ (m.stack.length < 4 → extcodecopy m = .error .StackUnderflow)
  ∧ (∀ n, m.stack.length < 2 + n → logOp n m = .error .StackUnderflow)
  ∧ (m.stack.length < 2 → return_op m = .error .StackUnderflow)
  ∧ (m.stack.length < 3 → return_data_copy m = .error .StackUnderflow)
  ∧ (m.stack.length < 2 → revert m = .error .StackUnderflow)
  ∧ (∀ recur, m.stack.length < 7 → call recur m = .error .StackUnderflow)
  ∧ (∀ recur, m.stack.length < 6 → static_call recur m = .error .StackUnderflow)
  ∧ (m.stack.length < 1 → selfdestruct m = .error .StackUnderflow) := by
  refine ⟨?_, ?_, ?_, ?_, ?_, ?_, ?_, ?_, ?_, ?_, ?_, ?_, ?_, ?_, ?_, ?_,
    ?_, ?_, ?_, ?_, ?_, ?_⟩ <;> intros <;>
    simp_all [binop, unop, mstore, mstore8, mload, sstore, sload, jump,
      jumpi, blockhash, dup, swap, sha3, accountQuery, extcodecopy, logOp,
      return_op, return_data_copy, revert, call, static_call, selfdestruct]

theorem c7_underflow_amended_witness :
    mstore (init [] defaultTransaction false) = .error .StackUnderflow :=
  (c7_underflow_amended (init [] defaultTransaction false)).2.2.1 (by decide)

/-- C5: a CALL whose transfer value exceeds the balance of the calling
account (the account at transaction.caller) leaves the ledger unchanged,
pushes 0 as the call-failure indicator, never invokes the target's code
(the nested runner `recur` is unused: the result holds for every recur),
and returns a non-fatal ok result so the outer Machine continues; the
handler also clears the outer success flag and grows the input memory
region — full resulting state spelled out below. -/
theorem c5_call_insufficient_balance (recur : EVM → Except EvmErr EVM)
    (m : EVM) (g to_addr v i1 i2 o1 o2 : Nat) (rest : List Nat) (acc : Account)
    (hStk : m.stack = g :: to_addr :: v :: i1 :: i2 :: o1 :: o2 :: rest)
    (hg : g < u64Mod) (hi1 : i1 < u64Mod) (hi2 : i2 < u64Mod)
    (ho1 : o1 < u64Mod) (ho2 : o2 < u64Mod)
    (hst : m.is_static = false)
    (hacc : lookupKV m.transaction.caller m.account_db = some acc)
    (hbal : acc.balance < v % u32Mod) :
    call recur m =
      .ok { m with stack := 0 :: rest,
                   memmory := padTo (i1 + i2) m.memmory,
                   success := false } := by
  unfold call
  rw [if_neg (by rw [hStk]; simp)]
  simp only [pop, hStk]
  simp only [asU64, hg, hi1, hi2, ho1, ho2, if_true, hst]
  simp [hacc, hbal]

theorem c5_call_insufficient_balance_witness :
    call (run 1) c5Machine =
      .ok { c5Machine with stack := 0 :: ([] : List Nat),
                           memmory := padTo (0 + 0) c5Machine.memmory,
                           success := false } :=
  c5_call_insufficient_balance (run 1) c5Machine 0 2 200 0 0 0 0 []
    { balance := 100, nonce := 1, storage := []
      code := [0x60, 0x00, 0x60, 0x00] }
    rfl (by decide) (by decide) (by decide) (by decide) (by decide) rfl rfl
    (by decide)

/-- C2(amended): a CALL does run the target account's code, but the nested
Machine is a FRESH EVM::init whose ledger is always the hard-coded seed
set, not a shared reference; consequently the resumed parent's ledger
never reflects anything the nested run did — whatever `recur` computes,
the parent's ledger after a successful CALL is exactly its own ledger,
either unchanged (insufficient balance) or with only the parent's own
debit of the caller account and credit of the target account applied. -/
theorem c2_nested_ledger_fresh (recur : EVM → Except EvmErr EVM)
    (m m2 : EVM) (g to_addr v i1 i2 o1 o2 : Nat) (rest : List Nat)
    (hStk : m.stack = g :: to_addr :: v :: i1 :: i2 :: o1 :: o2 :: rest)
    (h : call recur m = .ok m2) :
    (∀ c t s, (init c t s).account_db = initialAccountDb)
  ∧ (m2.account_db = m.account_db
     ∨ m2.account_db =
        updateAt to_addr (fun a => { a with balance := a.balance + v % u32Mod })
          (updateAt m.transaction.caller
            (fun a => { a with balance := a.balance - v % u32Mod })
            m.account_db)) := by
  refine ⟨fun c t s => rfl, ?_⟩
  unfold call at h
  rw [if_neg (by rw [hStk]; simp)] at h
  simp only [pop, hStk] at h
  split at h
  · exact absurd h (by simp)
  -- static-mode value check
  split at h
  · exact absurd h (by simp)
  -- the four memory-operand casts
  split at h
  · exact absurd h (by simp)
  split at h
  · exact absurd h (by simp)
  split at h
  · exact absurd h (by simp)
  split at h
  · exact absurd h (by simp)
  -- caller account lookup
  split at h
  · exact absurd h (by simp)
  -- balance check
  split at h
  case _ => -- insufficient balance: ledger unchanged
    left
    simp only [Except.ok.injEq] at h
    subst h
    rfl
  -- target account lookup
  split at h
  · exact absurd h (by simp)
  -- u64 credit
  split at h
  · exact absurd h (by simp)
  rename_i xT accTgt hTgt xA newBal hAdd
  -- data word conversion
  split at h
  · exact absurd h (by simp)
  -- nested run
  split at h
  · exact absurd h (by simp)
  -- output copy
  split at h
  · exact absurd h (by simp)
  -- success flag push
  right
  split at h <;>
    (simp only [Except.ok.injEq] at h
     subst h
     simp only [stackPush]
     exact updateAt_congr _ _ _ _ accTgt hTgt
       (by rw [u64add_ok _ _ _ hAdd]))

/-- The machine EVM::call returns for c2Parent's CALL (extracted so the
witness can state the theorem's conclusion about it). -/
def c2CallResult : EVM := ((call (run 5) c2Parent).toOption).getD c2Parent

theorem c2_nested_ledger_fresh_witness :
    (∀ c t s, (init c t s).account_db = initialAccountDb)
  ∧ (c2CallResult.account_db = c2Parent.account_db
     ∨ c2CallResult.account_db =
        updateAt 2 (fun a => { a with balance := a.balance + 0 % u32Mod })
          (updateAt c2Parent.transaction.caller
            (fun a => { a with balance := a.balance - 0 % u32Mod })
            c2Parent.account_db)) :=
  c2_nested_ledger_fresh (run 5) c2Parent c2CallResult 0 2 0 0 0 0 0 [] rfl rfl

end NaiveEvm
